import Mathlib

/-!
Shallow embedding of the COMSOL3DBin field library (CDSources/COMSOLData3D.c,
COMSOL3DBin/GSSmooth.c, COMSOL3DBin/COMSOLZMerge.cpp) over an ordered field.

C doubles are modelled by an arbitrary `LinearOrderedField` with a `FloorRing`
(instantiated at `ℚ` for computation and at `ℝ` where a square root is needed),
so all arithmetic is exact.  The sample buffer `mField` is modelled as a total
function `ℤ → α`; the C code only ever reads indices that are in range for the
grids the theorems quantify over.  Places where the C code reads uninitialized
memory are modelled by explicit `junk` parameters.
-/

namespace COMSOL3DBin

variable {α : Type} [LinearOrderedField α] [FloorRing α]

/-- C truncation of a floating value to `int`: toward zero. -/
def ctrunc (x : α) : ℤ := if 0 ≤ x then Int.floor x else Int.ceil x

/-- A coordinate / field-vector triple, `double[3]` in the C source. -/
abbrev Vec3 (α : Type) := Fin 3 → α

/-- One `CD3Data` record without its subfield array (COMSOLData3D.h, `CD3DataTag`):
type tag (0 = 2D axisymmetric, 1 = full 3D, 2 = unused/bounds only, 3 = error),
per-dimension counts, minima, maxima and deltas, the 2D stride, the sample
buffer and the provenance name. -/
structure CD3Node (α : Type) where
  mType : ℕ
  mNVal : Fin 3 → ℕ
  mMin : Vec3 α
  mMax : Vec3 α
  mDelta : Vec3 α
  mStride : ℤ
  mField : ℤ → α
  mFieldName : String

/-- A `CD3Data` together with its `mSubField` array (`mNSubField` children in
insertion order). -/
inductive CD3Data (α : Type) : Type where
  | node (g : CD3Node α) (subs : List (CD3Data α)) : CD3Data α

/-- The node data of the root of a `CD3Data` tree. -/
def CD3Data.head {α : Type} : CD3Data α → CD3Node α
  | node g _ => g

/-- The child list of the root of a `CD3Data` tree. -/
def CD3Data.subs {α : Type} : CD3Data α → List (CD3Data α)
  | node _ s => s

/-- `PtInBounds` (COMSOLData3D.c:330-339): false as soon as some coordinate is
below `mMin` or above `mMax`, true otherwise — a closed-interval test. -/
def PtInBounds (g : CD3Node α) (c : Vec3 α) : Bool :=
  decide (∀ i : Fin 3, g.mMin i ≤ c i ∧ c i ≤ g.mMax i)

/-- `CD3ClipPt` (COMSOLData3D.c:1137-1143): per-axis clamp of a coordinate
into `[mMin, mMax]`. -/
def CD3ClipPt (g : CD3Node α) (c : Vec3 α) : Vec3 α := fun i =>
  if c i < g.mMin i then g.mMin i
  else if g.mMax i < c i then g.mMax i else c i

/-- `Get3DEAtPoint` (COMSOLData3D.c:792-899), with `CD3BoundsCheck` active as in
the source (line 46).  Per axis the cell index is the C `int` truncation of
`(coord - min)/delta`, decremented at the exact top edge; the coordinate must
lie in `[mMin, mMax]` and the corrected index must satisfy
`index < mNVal - 1` (the C comparison converts the `int` index to `unsigned`,
so a negative index also fails; we model that by the `0 ≤ index` conjunct).
Reduced coordinates get ±0.001 slop.  On success: trilinear interpolation of
the 8 surrounding samples, one value per component. -/
def Get3DEAtPoint (g : CD3Node α) (c : Vec3 α) : Option (Vec3 α) :=
  let rawIdx : Fin 3 → ℤ := fun i => ctrunc ((c i - g.mMin i) / g.mDelta i)
  let index : Fin 3 → ℤ := fun i =>
    if rawIdx i = (g.mNVal i : ℤ) - 1 then rawIdx i - 1 else rawIdx i
  if ∀ i : Fin 3, (g.mMin i ≤ c i ∧ c i ≤ g.mMax i) ∧
      0 ≤ index i ∧ index i < (g.mNVal i : ℤ) - 1 then
    let nx : ℤ := g.mNVal 0
    let ny : ℤ := g.mNVal 1
    let rc : Fin 3 → α := fun i => (c i - (g.mMin i + index i * g.mDelta i)) / g.mDelta i
    let irc : Fin 3 → α := fun i => 1 - rc i
    if ∀ i : Fin 3, -(1/1000) ≤ rc i ∧ rc i ≤ 1 + 1/1000 then
      let interp : ℤ → α := fun comp =>
        let c00 := irc 0 * g.mField (((index 2 * ny + index 1) * nx + index 0) * 3 + comp) +
                   rc 0 * g.mField (((index 2 * ny + index 1) * nx + index 0 + 1) * 3 + comp)
        let c10 := irc 0 * g.mField (((index 2 * ny + (index 1 + 1)) * nx + index 0) * 3 + comp) +
                   rc 0 * g.mField (((index 2 * ny + (index 1 + 1)) * nx + index 0 + 1) * 3 + comp)
        let c01 := irc 0 * g.mField ((((index 2 + 1) * ny + index 1) * nx + index 0) * 3 + comp) +
                   rc 0 * g.mField ((((index 2 + 1) * ny + index 1) * nx + index 0 + 1) * 3 + comp)
        let c11 := irc 0 * g.mField ((((index 2 + 1) * ny + (index 1 + 1)) * nx + index 0) * 3 + comp) +
                   rc 0 * g.mField ((((index 2 + 1) * ny + (index 1 + 1)) * nx + index 0 + 1) * 3 + comp)
        irc 2 * (irc 1 * c00 + rc 1 * c10) + rc 2 * (irc 1 * c01 + rc 1 * c11)
      some ![interp 0, interp 1, interp 2]
    else none
  else none

/-- `Get2DEAtPoint` (COMSOLData3D.c:950-1021), `CD3BoundsCheck` active.
Radial index from `coord[0]/mDelta[1]`, z index from
`(coord[1]-mMin[2])/mDelta[2]`; top-edge corrections against `mNVal[1]`,
`mNVal[2]`; buffer indexed through `mStride`.  The in-source bounds check
`index[i] >= mNVal[i+1]` executes `return nan("")` in a `bool` function, i.e.
reports success while leaving the output buffer unwritten: that path is
modelled as `some junk` where `junk` stands for the caller's uninitialized
`field2D` buffer (a negative index wraps to a huge `unsigned`, hence the
`< 0` disjuncts). -/
def Get2DEAtPoint (g : CD3Node α) (junk : α × α) (c0 c1 : α) : Option (α × α) :=
  let raw0 : ℤ := ctrunc (c0 / g.mDelta 1)
  let raw1 : ℤ := ctrunc ((c1 - g.mMin 2) / g.mDelta 2)
  let i0 : ℤ := if raw0 = (g.mNVal 1 : ℤ) - 1 then raw0 - 1 else raw0
  let i1 : ℤ := if raw1 = (g.mNVal 2 : ℤ) - 1 then raw1 - 1 else raw1
  if (i0 < 0 ∨ (g.mNVal 1 : ℤ) ≤ i0) ∨ (i1 < 0 ∨ (g.mNVal 2 : ℤ) ≤ i1) then
    some junk
  else
    let rc0 : α := (c0 - i0 * g.mDelta 1) / g.mDelta 1
    let rc1 : α := (c1 - (g.mMin 2 + i1 * g.mDelta 2)) / g.mDelta 2
    if (-(1/1000) ≤ rc0 ∧ rc0 ≤ 1 + 1/1000) ∧ (-(1/1000) ≤ rc1 ∧ rc1 ≤ 1 + 1/1000) then
      let e0 := (1 - rc1) * ((1 - rc0) * g.mField ((i1 * g.mStride + i0) * 2) +
                  rc0 * g.mField ((i1 * g.mStride + i0 + 1) * 2)) +
                rc1 * ((1 - rc0) * g.mField (((i1 + 1) * g.mStride + i0) * 2) +
                  rc0 * g.mField (((i1 + 1) * g.mStride + i0 + 1) * 2))
      let e1 := (1 - rc1) * ((1 - rc0) * g.mField ((i1 * g.mStride + i0) * 2 + 1) +
                  rc0 * g.mField ((i1 * g.mStride + i0 + 1) * 2 + 1)) +
                rc1 * ((1 - rc0) * g.mField (((i1 + 1) * g.mStride + i0) * 2 + 1) +
                  rc0 * g.mField (((i1 + 1) * g.mStride + i0 + 1) * 2 + 1))
      some (e0, e1)
    else none

/-- `GetAxEAtPoint` (COMSOLData3D.c:905-944), `CD3BoundsCheck` active: 3-D
bounds test, then `r = sqrt(x²+y²)` (the square root is a parameter `sq` so
the definition stays polymorphic; theorems over `ℝ` instantiate it with
`Real.sqrt`), `sin = y/r`, `cos = x/r` when `r > 0` and both `0` otherwise;
the 2-D slice value at `(r, z)` is projected back as
`(Fr·cos, Fr·sin, Fz)`. -/
def GetAxEAtPoint (sq : α → α) (junk : α × α) (g : CD3Node α) (c : Vec3 α) :
    Option (Vec3 α) :=
  if PtInBounds g c then
    let r := sq (c 0 * c 0 + c 1 * c 1)
    let sinval : α := if 0 < r then c 1 / r else 0
    let cosval : α := if 0 < r then c 0 / r else 0
    match Get2DEAtPoint g junk r (c 2) with
    | some f2 => some ![f2.1 * cosval, f2.1 * sinval, f2.2]
    | none => none
  else none

mutual
/-- `CD3GetEAtPoint` (COMSOLData3D.c:346-373): reject type tags above 1, search
the children in insertion order and recurse into the first whose bounds contain
the point, otherwise answer from this node when the point is in bounds
(axisymmetric helper for tag 0, trilinear helper for tag 1), else fail. -/
def CD3GetEAtPoint (sq : α → α) (junk : α × α) (d : CD3Data α) (c : Vec3 α) :
    Option (Vec3 α) :=
  match d with
  | .node g subs =>
    if 1 < g.mType then none
    else
      match CD3GetESubs sq junk subs c with
      | some r => r
      | none =>
        if PtInBounds g c then
          if g.mType = 0 then GetAxEAtPoint sq junk g c else Get3DEAtPoint g c
        else none
  termination_by structural d

/-- The daughter-search loop of `CD3GetEAtPoint` (COMSOLData3D.c:356-360):
`some r` when some child's bounds contain the point (`r` being the recursive
answer of the first such child), `none` when no child contains it. -/
def CD3GetESubs (sq : α → α) (junk : α × α) (l : List (CD3Data α)) (c : Vec3 α) :
    Option (Option (Vec3 α)) :=
  match l with
  | [] => none
  | d :: rest =>
    if PtInBounds d.head c then some (CD3GetEAtPoint sq junk d c)
    else CD3GetESubs sq junk rest c
  termination_by structural l
end


/-- `CD3GetNameAtPoint` (COMSOLData3D.c:379-404): same type-tag guard; the
first child whose bounds contain the point answers with ITS `mFieldName`
(no recursion); otherwise the node's own name when the point is in bounds,
else the fixed miss string. -/
def CD3GetNameAtPoint (d : CD3Data α) (c : Vec3 α) : String :=
  match d with
  | .node g subs =>
    if 1 < g.mType then "Invalid field type"
    else
      match subs.find? (fun s => PtInBounds s.head c) with
      | some child => child.head.mFieldName
      | none => if PtInBounds g c then g.mFieldName else "No field found"

/-! ### Binary codec (COMSOLData3D.c:413-607) -/

/-- The magic constant `'CD3B'` (COMSOLData3D.c:51), read as the usual
big-endian multi-character constant. -/
def gCD3Magic : ℕ := 0x43443342

/-- `gCD3HeadLength` (COMSOLData3D.c:55). -/
def gCD3HeadLength : ℕ := 512

/-- Number of doubles in the payload: point count times components
(2 for tag 0 = axisymmetric, 3 for tag 1 = full 3D), as computed in
`CD3WriteBinary`/`CD3ReadBinary`. -/
def npointOf (t : ℕ) (nVal : Fin 3 → ℕ) : ℕ :=
  nVal 0 * nVal 1 * nVal 2 * (if t = 0 then 2 else 3)

/-- The effect of `strncpy(dst, src, 63)` on the first 63 bytes of a name
field: copy at most 63 bytes of the source and pad the remainder of those 63
bytes with NULs.  `src` is the byte list of the C string (it contains no 0). -/
def strncpy63 (src : List ℕ) : List ℕ :=
  src.take 63 ++ List.replicate (63 - src.length) 0

/-- One 64-byte name field of the header after `CD3WriteBinary` filled it
(COMSOLData3D.c:427-432).  The header is obtained with `malloc` and never
cleared, so byte 63 is never written by `strncpy(_, _, 63)` and keeps its
uninitialized value `junkByte`; if the corresponding global name is `NULL`
the whole field keeps its uninitialized content `junkAll`. -/
def headerName (src : Option (List ℕ)) (junkByte : ℕ) (junkAll : List ℕ) : List ℕ :=
  match src with
  | some s => strncpy63 s ++ [junkByte]
  | none => junkAll

/-- The on-disk image produced by `CD3WriteBinary`: the 512-byte header
(magic, data offset, two 64-byte name fields, copy of the `CD3Data`
metadata) followed by the raw sample payload. -/
structure CD3BinFile (α : Type) where
  magic : ℕ
  dataOffset : ℕ
  modelName : List ℕ
  fileName : List ℕ
  hType : ℕ
  hNVal : Fin 3 → ℕ
  hMin : Vec3 α
  hMax : Vec3 α
  hDelta : Vec3 α
  hStride : ℤ
  payload : List α

/-- `CD3WriteBinary` (COMSOLData3D.c:413-484).  Fills the header from the two
global file-name strings and the field's metadata and emits
`npoint = nVal0*nVal1*nVal2*(2 or 3)` samples; a type tag other than 0/1 makes
the call fail (the C code has already emitted the header at that point, but no
readable file results).  I/O shortness is outside the model. -/
def CD3WriteBinary (gModelFileName gFieldFileName : Option (List ℕ))
    (junkM junkF : ℕ) (junkMAll junkFAll : List ℕ) (d : CD3Node α) :
    Option (CD3BinFile α) :=
  if d.mType = 0 ∨ d.mType = 1 then
    some { magic := gCD3Magic
           dataOffset := gCD3HeadLength
           modelName := headerName gModelFileName junkM junkMAll
           fileName := headerName gFieldFileName junkF junkFAll
           hType := d.mType
           hNVal := d.mNVal
           hMin := d.mMin
           hMax := d.mMax
           hDelta := d.mDelta
           hStride := d.mStride
           payload := (List.range (npointOf d.mType d.mNVal)).map fun k : ℕ => d.mField (k : ℤ) }
  else none

/-- `CD3ReadBinary` (COMSOLData3D.c:491-607).  Checks the magic, requires the
type tag to be 0 or 1, requires every active dimension (`nVal > 1`) to have
`max > min` and `delta > 0`, requires the number of active dimensions to match
the tag (2 for tag 0, 3 for tag 1), then reads exactly `npoint` samples
(failing when the file holds fewer).  The function never assigns
`mFieldName`, and indices outside the freshly allocated buffer stay
uninitialized: both are modelled by junk parameters. -/
def CD3ReadBinary (junkName : String) (junkOut : ℤ → α) (f : CD3BinFile α) :
    Option (CD3Node α) :=
  if f.magic ≠ gCD3Magic then none
  else if ¬(f.hType = 0 ∨ f.hType = 1) then none
  else if ∃ i : Fin 3, 1 < f.hNVal i ∧ (f.hMax i ≤ f.hMin i ∨ f.hDelta i ≤ 0) then none
  else
    let nActive := (Finset.univ.filter fun i : Fin 3 => 1 < f.hNVal i).card
    if (f.hType = 0 ∧ nActive ≠ 2) ∨ (f.hType = 1 ∧ nActive ≠ 3) then none
    else
      let npoint := npointOf f.hType f.hNVal
      if f.payload.length < npoint then none
      else
        some { mType := f.hType
               mNVal := f.hNVal
               mMin := f.hMin
               mMax := f.hMax
               mDelta := f.hDelta
               mStride := f.hStride
               mField := fun k =>
                 if 0 ≤ k ∧ k < (npoint : ℤ) then f.payload.getD k.toNat 0 else junkOut k
               mFieldName := junkName }

/-! ### Z-merge compatibility (COMSOLZMerge.cpp:193-249) -/

/-- `NearlyEqual` (COMSOLZMerge.cpp:243-249): the difference must be strictly
below `1e-6` times the smaller magnitude. -/
def NearlyEqual (v1 v2 : α) : Bool :=
  |v1 - v2| < (1 / 1000000) * min |v1| |v2|

/-- `XYCompatible` (COMSOLZMerge.cpp:193-237): both x and y mins, maxes and
deltas and the z delta must be `NearlyEqual`, the grid with the lower z min is
`lowz`, and its z max must reach the other grid's z min; returns the lower-z
grid on success, nothing on failure. -/
def XYCompatible (ind1 ind2 : CD3Node α) : Option (CD3Node α) :=
  if NearlyEqual (ind1.mMin 0) (ind2.mMin 0) ∧ NearlyEqual (ind1.mMax 0) (ind2.mMax 0) ∧
     NearlyEqual (ind1.mDelta 0) (ind2.mDelta 0) ∧
     NearlyEqual (ind1.mMin 1) (ind2.mMin 1) ∧ NearlyEqual (ind1.mMax 1) (ind2.mMax 1) ∧
     NearlyEqual (ind1.mDelta 1) (ind2.mDelta 1) ∧
     NearlyEqual (ind1.mDelta 2) (ind2.mDelta 2) then
    let lowz := if ind2.mMin 2 ≤ ind1.mMin 2 then ind2 else ind1
    let hiz := if ind2.mMin 2 ≤ ind1.mMin 2 then ind1 else ind2
    if lowz.mMax 2 < hiz.mMin 2 then none else some lowz
  else none

/-! ### Gauss-Seidel smoother (GSSmooth.c) -/

/-- The `CDError` enumeration (COMSOLData.h:52-67). -/
inductive CDError where
  | kCDNoErr
  | kCDCantOpenIn
  | kCDIncompleteHeader
  | kCDAllocFailed
  | kCDNameAllocFailed
  | kCDCantOpenOut
  | kCDBadStructure
  | kCDNotLeaf
  | kCDNot4Fold
  | kCDBadGeom
  | kCDNoArgs
  | kCDBadWrite
  | kCDXYCompatFail
  | kCDError
  deriving DecidableEq, Repr

/-- A single `type[i] = 0` store into the point-type array. -/
def setZeroAt (t : ℕ → ℕ) (i : ℕ) : ℕ → ℕ := fun r => if r = i then 0 else t r

/-- `NewTypeArray` (GSSmooth.c:167-211): `memset` everything to 1 (free), then
three loop nests mark the two z faces, the two y faces and the two x faces 0
(fixed), indexing by `(iz*nVal1 + iy)*nVal0 + ix`. -/
def NewTypeArray (nVal : Fin 3 → ℕ) : ℕ → ℕ :=
  let nx := nVal 0
  let ny := nVal 1
  let nz := nVal 2
  let base : ℕ → ℕ := fun _ => 1
  let t1 := (List.range ny).foldl (fun t iy =>
    (List.range nx).foldl (fun t ix =>
      setZeroAt (setZeroAt t (((nz - 1) * ny + iy) * nx + ix)) ((0 * ny + iy) * nx + ix)) t) base
  let t2 := (List.range nz).foldl (fun t iz =>
    (List.range nx).foldl (fun t ix =>
      setZeroAt (setZeroAt t ((iz * ny + 0) * nx + ix)) ((iz * ny + (ny - 1)) * nx + ix)) t) t1
  (List.range nz).foldl (fun t iz =>
    (List.range ny).foldl (fun t iy =>
      setZeroAt (setZeroAt t ((iz * ny + iy) * nx + 0)) ((iz * ny + iy) * nx + (nx - 1))) t) t2

/-- The body of the red/black loops of `GSSmooth` (GSSmooth.c:106-126) at one
grid point: type 0 (fixed) and unknown types leave the state alone; type 1
replaces each of the three components at `index = 3*rIndex` by the weighted
neighbour average and accumulates the squared change into the error. -/
def gsPointUpdate (wx wy wz : α) (nx ny : ℕ) (pt : ℕ → ℕ) (s : (ℤ → α) × α)
    (iz iy ix : ℕ) : (ℤ → α) × α :=
  let rIndex : ℕ := (iz * ny + iy) * nx + ix
  let index : ℤ := 3 * (rIndex : ℤ)
  let dxi : ℤ := 3
  let dyi : ℤ := 3 * (nx : ℤ)
  let dzi : ℤ := 3 * (nx : ℤ) * (ny : ℤ)
  if pt rIndex = 0 then s
  else if pt rIndex = 1 then
    ([0, 1, 2] : List ℤ).foldl (fun s2 comp =>
      let a := s2.1
      let newVal := wx * (a (index + dxi + comp) + a (index - dxi + comp)) +
                    wy * (a (index + dyi + comp) + a (index - dyi + comp)) +
                    wz * (a (index + dzi + comp) + a (index - dzi + comp))
      let terr := newVal - a (index + comp)
      (fun j => if j = index + comp then newVal else a j, s2.2 + terr * terr)) s
  else s

/-- One half sweep of `GSSmooth`: `off = 0` is the red sweep (`idx` starts at
`(idy+idz)&1` and steps by 2, i.e. visits `ix ≡ iy+iz (mod 2)`), `off = 1`
the black sweep. -/
def gsSweep (wx wy wz : α) (nVal : Fin 3 → ℕ) (pt : ℕ → ℕ) (off : ℕ)
    (s : (ℤ → α) × α) : (ℤ → α) × α :=
  (List.range (nVal 2)).foldl (fun s iz =>
    (List.range (nVal 1)).foldl (fun s iy =>
      ((List.range (nVal 0)).filter fun ix => ix % 2 = (iy + iz + off) % 2).foldl
        (fun s ix => gsPointUpdate wx wy wz (nVal 0) (nVal 1) pt s iz iy ix) s) s) s

/-- One full pass of `GSSmooth` (GSSmooth.c:101-158): reset the error, red
sweep then black sweep; returns the samples and the pass's reported error. -/
def gsPass (wx wy wz : α) (nVal : Fin 3 → ℕ) (pt : ℕ → ℕ) (a : ℤ → α) :
    (ℤ → α) × α :=
  gsSweep wx wy wz nVal pt 1 (gsSweep wx wy wz nVal pt 0 (a, 0))

/-- `nPass` passes, collecting the per-pass errors that `GSSmooth` prints. -/
def gsRun (wx wy wz : α) (nVal : Fin 3 → ℕ) (pt : ℕ → ℕ) :
    ℕ → (ℤ → α) → (ℤ → α) × List α
  | 0, a => (a, [])
  | n + 1, a =>
    let p := gsPass wx wy wz nVal pt a
    let rest := gsRun wx wy wz nVal pt n p.1
    (rest.1, p.2 :: rest.2)

/-- `GSSmooth` (GSSmooth.c:26-162).  Fails with `kCDNotLeaf` when the field
has children, then with `kCDNot4Fold` when `mStride != 0` (a 2D field); both
failures leave the samples untouched.  The geometry file is abstracted:
`none` models `CD3ListReadGeom` failing (`kCDBadGeom`, samples untouched);
`some geo` models the loaded geometry list, `geo r = true` meaning the grid
point with flat index `r` lies inside some geometry, which the refinement step
(`CD3ListAddGeomTo`; live analogue `CD3Smoothable::AddGeometry`,
CD3Smoothable.cpp:170-202) marks fixed (type 0).  The weights follow
GSSmooth.c:90-95; the result carries the final samples and the reported
per-pass errors. -/
def GSSmooth (geom : Option (ℕ → Bool)) (d : CD3Data α) (nPass : ℕ) :
    CDError × (ℤ → α) × List α :=
  match d with
  | .node g subs =>
    if 0 < subs.length then (CDError.kCDNotLeaf, g.mField, [])
    else if g.mStride ≠ 0 then (CDError.kCDNot4Fold, g.mField, [])
    else
      match geom with
      | none => (CDError.kCDBadGeom, g.mField, [])
      | some geo =>
        let pt : ℕ → ℕ := fun r => if geo r then 0 else NewTypeArray g.mNVal r
        let wa := 1 / (1 / (g.mDelta 0 * g.mDelta 0) + 1 / (g.mDelta 1 * g.mDelta 1) +
                       1 / (g.mDelta 2 * g.mDelta 2))
        let wx := wa / (2 * g.mDelta 0 * g.mDelta 0)
        let wy := wa / (2 * g.mDelta 1 * g.mDelta 1)
        let wz := wa / (2 * g.mDelta 2 * g.mDelta 2)
        let res := gsRun wx wy wz g.mNVal pt nPass g.mField
        (CDError.kCDNoErr, res.1, res.2)

/-! ### Spec-side definitions (for refinement claims) -/

/-- Bilinear interpolation of the 2-component slice field at `(r, z)` as the
spec words it (§4.1): lower-corner index per axis via `floor((coord-min)/step)`
clamped to `count-2` at the top edge, fractional offsets from the cell corner,
radial index through the stride field.  Written from the SPEC, to be compared
with `Get2DEAtPoint` from the source. -/
def specSliceBilinear (g : CD3Node α) (r z : α) : α × α :=
  let i0 : ℤ := min (Int.floor (r / g.mDelta 1)) ((g.mNVal 1 : ℤ) - 2)
  let i1 : ℤ := min (Int.floor ((z - g.mMin 2) / g.mDelta 2)) ((g.mNVal 2 : ℤ) - 2)
  let t0 : α := r / g.mDelta 1 - i0
  let t1 : α := (z - g.mMin 2) / g.mDelta 2 - i1
  let sample : ℤ → ℤ → ℤ → α := fun a b comp => g.mField ((b * g.mStride + a) * 2 + comp)
  ((1 - t1) * ((1 - t0) * sample i0 i1 0 + t0 * sample (i0 + 1) i1 0) +
     t1 * ((1 - t0) * sample i0 (i1 + 1) 0 + t0 * sample (i0 + 1) (i1 + 1) 0),
   (1 - t1) * ((1 - t0) * sample i0 i1 1 + t0 * sample (i0 + 1) i1 1) +
     t1 * ((1 - t0) * sample i0 (i1 + 1) 1 + t0 * sample (i0 + 1) (i1 + 1) 1))

/-! ## Claim theorems -/

/-! ### C10: bounds test and clipping -/

/-- Example grid for witnesses: a unit-cube full-3D field. -/
def exG10 : CD3Node ℚ := ⟨1, ![2, 2, 2], ![0, 0, 0], ![1, 1, 1], ![1, 1, 1], 0, fun _ => 0, "g"⟩

/-- Example query point, out of bounds on two axes. -/
def exPt10 : Vec3 ℚ := ![5, -1, 1/2]

/-- C10: for a grid with per-axis `min ≤ max`, `PtInBounds` is true exactly on
the closed per-axis intervals, `CD3ClipPt` always lands in bounds, is the
identity on in-bounds points, and is idempotent. -/
theorem claim_C10 (g : CD3Node α) (c : Vec3 α)
    (hmm : ∀ i : Fin 3, g.mMin i ≤ g.mMax i) :
    (PtInBounds g c = true ↔ ∀ i : Fin 3, g.mMin i ≤ c i ∧ c i ≤ g.mMax i) ∧
    PtInBounds g (CD3ClipPt g c) = true ∧
    (PtInBounds g c = true → CD3ClipPt g c = c) ∧
    CD3ClipPt g (CD3ClipPt g c) = CD3ClipPt g c := by
  refine ⟨by simp [PtInBounds], ?_, ?_, ?_⟩
  · simp only [PtInBounds, decide_eq_true_eq, CD3ClipPt]
    intro i
    rcases lt_or_le (c i) (g.mMin i) with h1 | h1
    · rw [if_pos h1]
      exact ⟨le_refl _, hmm i⟩
    · rw [if_neg (not_lt.mpr h1)]
      rcases lt_or_le (g.mMax i) (c i) with h2 | h2
      · rw [if_pos h2]
        exact ⟨hmm i, le_refl _⟩
      · rw [if_neg (not_lt.mpr h2)]
        exact ⟨h1, h2⟩
  · intro h
    simp only [PtInBounds, decide_eq_true_eq] at h
    funext i
    rcases h i with ⟨h1, h2⟩
    simp only [CD3ClipPt]
    rw [if_neg (not_lt.mpr h1), if_neg (not_lt.mpr h2)]
  · funext i
    simp only [CD3ClipPt]
    rcases lt_or_le (c i) (g.mMin i) with h1 | h1
    · simp only [if_pos h1, if_neg (lt_irrefl (g.mMin i)), if_neg (not_lt.mpr (hmm i))]
    · rcases lt_or_le (g.mMax i) (c i) with h2 | h2
      · simp only [if_neg (not_lt.mpr h1), if_pos h2, if_neg (lt_irrefl (g.mMax i)),
          if_neg (not_lt.mpr (hmm i))]
      · simp only [if_neg (not_lt.mpr h1), if_neg (not_lt.mpr h2)]

/-- Witness for C10 at a concrete grid and point. -/
theorem claim_C10_witness :
    (∀ i : Fin 3, exG10.mMin i ≤ exG10.mMax i) ∧
    ((PtInBounds exG10 exPt10 = true ↔
        ∀ i : Fin 3, exG10.mMin i ≤ exPt10 i ∧ exPt10 i ≤ exG10.mMax i) ∧
      PtInBounds exG10 (CD3ClipPt exG10 exPt10) = true ∧
      (PtInBounds exG10 exPt10 = true → CD3ClipPt exG10 exPt10 = exPt10) ∧
      CD3ClipPt exG10 (CD3ClipPt exG10 exPt10) = CD3ClipPt exG10 exPt10) :=
  ⟨by decide, claim_C10 exG10 exPt10 (by decide)⟩

/-! ### C8: merge compatibility -/

/-- Lower-z merge grid: x and y ranges `[0,1]`, z range `[0,1]`. -/
def zmLow : CD3Node ℚ :=
  ⟨1, ![3, 3, 3], ![0, 0, 0], ![1, 1, 1], ![1/2, 1/2, 1/2], 0, fun _ => 0, "low"⟩

/-- Higher-z merge grid: identical x/y extents and deltas, z range `[1,2]`
touching `zmLow`. -/
def zmHigh : CD3Node ℚ :=
  ⟨1, ![3, 3, 3], ![0, 0, 1], ![1, 1, 2], ![1/2, 1/2, 1/2], 0, fun _ => 0, "high"⟩

/-- C8 (code bug): two z-adjacent grids with IDENTICAL x/y extents and deltas
are refused by `XYCompatible`, because `NearlyEqual` compares with a strict
`<` against `1e-6 * min(|v1|,|v2|)`, which is `0 < 0` for the two equal
x-minima `0.0`; even exactly equal values are "not equal" whenever the
smaller magnitude is `0`. -/
theorem claim_C8 :
    NearlyEqual (0 : ℚ) 0 = false ∧
    zmLow.mMax 2 = zmHigh.mMin 2 ∧
    (XYCompatible zmLow zmHigh).isNone = true := by
  have h0 : NearlyEqual (0 : ℚ) 0 = false := by
    unfold NearlyEqual
    norm_num
  refine ⟨h0, rfl, ?_⟩
  unfold XYCompatible
  rw [if_neg]
  · rfl
  · intro hcon
    have h1 := hcon.1
    rw [show zmLow.mMin 0 = 0 from rfl, show zmHigh.mMin 0 = 0 from rfl, h0] at h1
    exact Bool.false_ne_true h1

/-! ### C6: solver preconditions -/

/-- A valid full-3D child node. -/
def gsChildN : CD3Node ℚ := ⟨1, ![2, 2, 2], ![0, 0, 0], ![1, 1, 1], ![1, 1, 1], 0, fun _ => 0, "c"⟩

/-- A 2-D (nonzero stride) node that also has a child. -/
def gsBadN : CD3Node ℚ := ⟨0, ![1, 2, 2], ![0, 0, 0], ![1, 1, 1], ![1, 1, 1], 5, fun _ => 0, "p"⟩

/-- The offending field: non-leaf AND non-full-3D at the same time. -/
def gsBadD : CD3Data ℚ := .node gsBadN [.node gsChildN []]

/-- C6 counterexample: a field that is both non-leaf and 2-D (stride 5) fails
with `kCDNotLeaf`, not `kCDNot4Fold`, so "fails with Not4Fold exactly when the
target is not Full3D" is false as stated. -/
theorem claim_C6_cex :
    gsBadN.mStride ≠ 0 ∧
    (GSSmooth (some fun _ => false) gsBadD 1).1 = CDError.kCDNotLeaf ∧
    CDError.kCDNotLeaf ≠ CDError.kCDNot4Fold := by decide

/-- C6 (amended): `GSSmooth` fails with `kCDNotLeaf` exactly when there is at
least one child; it fails with `kCDNot4Fold` exactly when it is a leaf AND the
stride is nonzero (the leaf check runs first); in either failure the samples
are returned unmodified. -/
theorem claim_C6 (geom : Option (ℕ → Bool)) (g : CD3Node α)
    (subs : List (CD3Data α)) (nPass : ℕ) :
    ((GSSmooth geom (.node g subs) nPass).1 = CDError.kCDNotLeaf ↔ subs ≠ []) ∧
    ((GSSmooth geom (.node g subs) nPass).1 = CDError.kCDNot4Fold ↔
      subs = [] ∧ g.mStride ≠ 0) ∧
    ((subs ≠ [] ∨ g.mStride ≠ 0) → (GSSmooth geom (.node g subs) nPass).2.1 = g.mField) := by
  unfold GSSmooth
  rcases subs with _ | ⟨s, rest⟩
  · by_cases hs : g.mStride = 0
    · simp only [List.length_nil, lt_irrefl, if_false, hs, ne_eq, not_true_eq_false,
        if_neg, ite_false]
      cases geom <;> simp
    · simp [hs]
  · simp

/-- Witness for C6 at a concrete leaf 2-D field: it fails `kCDNot4Fold` with
samples untouched. -/
theorem claim_C6_witness :
    (([] : List (CD3Data ℚ)) = [] ∧ gsBadN.mStride ≠ 0) ∧
    (GSSmooth (some fun _ => false) (.node gsBadN []) 1).1 = CDError.kCDNot4Fold :=
  ⟨⟨rfl, by decide⟩, (claim_C6 (some fun _ => false) gsBadN [] 1).2.1.mpr ⟨rfl, by decide⟩⟩

/-! ### C2: trilinear interpolation is exact at lattice points -/

/-- C truncation of a natural-number value is that value. -/
theorem ctrunc_natCast (k : ℕ) : ctrunc ((k : ℕ) : α) = (k : ℤ) := by
  unfold ctrunc
  rw [if_pos (by positivity)]
  exact_mod_cast Int.floor_natCast k

/-- Componentwise extensionality for coordinate triples. -/
theorem vec3_ext {β : Type} {a0 a1 a2 b0 b1 b2 : β} (h0 : a0 = b0) (h1 : a1 = b1)
    (h2 : a2 = b2) : (![a0, a1, a2] : Fin 3 → β) = ![b0, b1, b2] := by
  subst h0
  subst h1
  subst h2
  rfl

/-- Evaluation of `Get3DEAtPoint` at an exact lattice coordinate
`min + e*delta`: the interpolation returns exactly the three stored components
of the sample at lattice index `e`. -/
theorem Get3DEAtPoint_lattice (g : CD3Node α)
    (hn : ∀ i : Fin 3, 2 ≤ g.mNVal i)
    (hd : ∀ i : Fin 3, 0 < g.mDelta i)
    (hmax : ∀ i : Fin 3, g.mMax i = g.mMin i + ((g.mNVal i : α) - 1) * g.mDelta i)
    (e : Fin 3 → ℕ) (he : ∀ i : Fin 3, e i < g.mNVal i) :
    Get3DEAtPoint g (fun i => g.mMin i + (e i : α) * g.mDelta i) =
      some ![g.mField ((((e 2 * g.mNVal 1 + e 1) * g.mNVal 0 + e 0 : ℕ) : ℤ) * 3 + 0),
             g.mField ((((e 2 * g.mNVal 1 + e 1) * g.mNVal 0 + e 0 : ℕ) : ℤ) * 3 + 1),
             g.mField ((((e 2 * g.mNVal 1 + e 1) * g.mNVal 0 + e 0 : ℕ) : ℤ) * 3 + 2)] := by
  have hdne : ∀ i : Fin 3, g.mDelta i ≠ 0 := fun i => ne_of_gt (hd i)
  have hraw : ∀ i : Fin 3,
      ctrunc ((g.mMin i + (e i : α) * g.mDelta i - g.mMin i) / g.mDelta i) =
        ((e i : ℕ) : ℤ) := by
    intro i
    rw [add_sub_cancel_left, mul_div_cancel_right₀ _ (hdne i), ctrunc_natCast]
  have hguard : ∀ i : Fin 3,
      (g.mMin i ≤ g.mMin i + (e i : α) * g.mDelta i ∧
        g.mMin i + (e i : α) * g.mDelta i ≤ g.mMax i) ∧
      (0 ≤ if ((e i : ℕ) : ℤ) = ((g.mNVal i : ℕ) : ℤ) - 1 then ((e i : ℕ) : ℤ) - 1
        else ((e i : ℕ) : ℤ)) ∧
      (if ((e i : ℕ) : ℤ) = ((g.mNVal i : ℕ) : ℤ) - 1 then ((e i : ℕ) : ℤ) - 1
        else ((e i : ℕ) : ℤ)) < ((g.mNVal i : ℕ) : ℤ) - 1 := by
    intro i
    have h1 := hn i
    have h2 := he i
    refine ⟨⟨?_, ?_⟩, ?_, ?_⟩
    · have : (0 : α) ≤ (e i : α) * g.mDelta i :=
        mul_nonneg (Nat.cast_nonneg _) (le_of_lt (hd i))
      linarith
    · rw [hmax i]
      have hle : ((e i : ℕ) : α) ≤ ((g.mNVal i : ℕ) : α) - 1 := by
        have hc : ((e i : ℕ) : α) + 1 ≤ ((g.mNVal i : ℕ) : α) := by
          have : ((e i + 1 : ℕ) : α) ≤ ((g.mNVal i : ℕ) : α) := Nat.cast_le.mpr h2
          push_cast at this
          linarith
        linarith
      have := mul_le_mul_of_nonneg_right hle (le_of_lt (hd i))
      linarith
    · split_ifs with h <;> omega
    · split_ifs with h <;> omega
  have hrc : ∀ i : Fin 3,
      (g.mMin i + (e i : α) * g.mDelta i -
        (g.mMin i + (((if ((e i : ℕ) : ℤ) = ((g.mNVal i : ℕ) : ℤ) - 1
            then ((e i : ℕ) : ℤ) - 1 else ((e i : ℕ) : ℤ)) : ℤ) : α) * g.mDelta i)) /
          g.mDelta i =
      if ((e i : ℕ) : ℤ) = ((g.mNVal i : ℕ) : ℤ) - 1 then (1 : α) else 0 := by
    intro i
    by_cases h : ((e i : ℕ) : ℤ) = ((g.mNVal i : ℕ) : ℤ) - 1
    · rw [if_pos h, if_pos h]
      have hc : (((e i : ℤ) - 1 : ℤ) : α) = (e i : α) - 1 := by push_cast; ring
      rw [hc]
      have hnum : g.mMin i + (e i : α) * g.mDelta i -
          (g.mMin i + ((e i : α) - 1) * g.mDelta i) = g.mDelta i := by ring
      rw [hnum, div_self (hdne i)]
    · rw [if_neg h, if_neg h, Int.cast_natCast]
      rw [sub_self ((g.mMin i + (e i : α) * g.mDelta i)), zero_div]
  unfold Get3DEAtPoint
  simp only [hraw]
  rw [if_pos hguard]
  simp only [hrc]
  rw [if_pos ?hslop]
  case hslop =>
    intro i
    split_ifs <;> constructor <;> norm_num
  by_cases h0 : ((e 0 : ℕ) : ℤ) = ((g.mNVal 0 : ℕ) : ℤ) - 1 <;>
    by_cases h1 : ((e 1 : ℕ) : ℤ) = ((g.mNVal 1 : ℕ) : ℤ) - 1 <;>
    by_cases h2 : ((e 2 : ℕ) : ℤ) = ((g.mNVal 2 : ℕ) : ℤ) - 1 <;>
    · simp only [h0, h1, h2, if_true, if_false, if_pos, if_neg, not_false_iff]
      norm_num
      all_goals
        refine vec3_ext ?_ ?_ ?_ <;>
          (congr 1 <;>
            first
            | ring1
            | (simp only [h0, h1, h2]; all_goals ring1)
            | (simp only [h0, h1, h2]; push_cast; all_goals ring1)
            | (push_cast; simp only [h0, h1, h2]; all_goals ring1)
            | (push_cast; simp only [h0, h1, h2]; push_cast; all_goals ring1)
            | (push_cast; ring1))

/-- A lattice coordinate `min + e*delta` with `e` within the counts lies in
the field's bounds. -/
theorem lattice_inBounds (g : CD3Node α)
    (hd : ∀ i : Fin 3, 0 < g.mDelta i)
    (hmax : ∀ i : Fin 3, g.mMax i = g.mMin i + ((g.mNVal i : α) - 1) * g.mDelta i)
    (e : Fin 3 → ℕ) (he : ∀ i : Fin 3, e i < g.mNVal i) :
    PtInBounds g (fun i => g.mMin i + (e i : α) * g.mDelta i) = true := by
  rw [PtInBounds, decide_eq_true_eq]
  intro i
  constructor
  · have : (0 : α) ≤ (e i : α) * g.mDelta i :=
      mul_nonneg (Nat.cast_nonneg _) (le_of_lt (hd i))
    linarith
  · rw [hmax i]
    have hle : ((e i : ℕ) : α) ≤ ((g.mNVal i : ℕ) : α) - 1 := by
      have hc : ((e i + 1 : ℕ) : α) ≤ ((g.mNVal i : ℕ) : α) := Nat.cast_le.mpr (he i)
      push_cast at hc
      linarith
    have := mul_le_mul_of_nonneg_right hle (le_of_lt (hd i))
    linarith

/-- Dispatch of `CD3GetEAtPoint` on a childless node, written out. -/
theorem CD3GetEAtPoint_leaf (sq : α → α) (junk : α × α) (g : CD3Node α) (c : Vec3 α) :
    CD3GetEAtPoint sq junk (.node g []) c =
      if 1 < g.mType then none
      else if PtInBounds g c then
        (if g.mType = 0 then GetAxEAtPoint sq junk g c else Get3DEAtPoint g c)
      else none := by
  rw [CD3GetEAtPoint]
  have hnil : CD3GetESubs sq junk ([] : List (CD3Data α)) c = none := by
    rw [CD3GetESubs]
  rw [hnil]

/-- C2: querying a Full3D leaf field at the exact lattice coordinate
`min + index*delta` returns exactly the stored 3-component sample at that
lattice index (exact equality — the embedding has exact arithmetic). -/
theorem claim_C2 (sq : α → α) (junk : α × α) (g : CD3Node α)
    (hty : g.mType = 1)
    (hn : ∀ i : Fin 3, 2 ≤ g.mNVal i)
    (hd : ∀ i : Fin 3, 0 < g.mDelta i)
    (hmax : ∀ i : Fin 3, g.mMax i = g.mMin i + ((g.mNVal i : α) - 1) * g.mDelta i)
    (e : Fin 3 → ℕ) (he : ∀ i : Fin 3, e i < g.mNVal i) :
    CD3GetEAtPoint sq junk (.node g []) (fun i => g.mMin i + (e i : α) * g.mDelta i) =
      some ![g.mField ((((e 2 * g.mNVal 1 + e 1) * g.mNVal 0 + e 0 : ℕ) : ℤ) * 3 + 0),
             g.mField ((((e 2 * g.mNVal 1 + e 1) * g.mNVal 0 + e 0 : ℕ) : ℤ) * 3 + 1),
             g.mField ((((e 2 * g.mNVal 1 + e 1) * g.mNVal 0 + e 0 : ℕ) : ℤ) * 3 + 2)] := by
  rw [CD3GetEAtPoint_leaf, if_neg (by omega), lattice_inBounds g hd hmax e he, if_pos rfl,
    if_neg (by omega), Get3DEAtPoint_lattice g hn hd hmax e he]

/-- Witness grid for C2: 2×3×2 full-3D grid with samples `mField k = k`. -/
def exC2G : CD3Node ℚ :=
  ⟨1, ![2, 3, 2], ![0, 0, 0], ![1, 2, 1], ![1, 1, 1], 0, fun k => (k : ℚ), "c2"⟩

/-- Witness for C2 at lattice index (1, 2, 0) of the concrete grid. -/
theorem claim_C2_witness :
    (exC2G.mType = 1 ∧ (∀ i : Fin 3, 2 ≤ exC2G.mNVal i) ∧
      (∀ i : Fin 3, 0 < exC2G.mDelta i) ∧
      (∀ i : Fin 3, exC2G.mMax i = exC2G.mMin i +
        ((exC2G.mNVal i : ℚ) - 1) * exC2G.mDelta i) ∧
      (∀ i : Fin 3, (![1, 2, 0] : Fin 3 → ℕ) i < exC2G.mNVal i)) ∧
    CD3GetEAtPoint (fun _ => (0 : ℚ)) (0, 0) (.node exC2G [])
        (fun i => exC2G.mMin i + (((![1, 2, 0] : Fin 3 → ℕ) i : ℚ)) * exC2G.mDelta i) =
      some ![exC2G.mField (((((![1, 2, 0] : Fin 3 → ℕ) 2 * exC2G.mNVal 1 +
                (![1, 2, 0] : Fin 3 → ℕ) 1) * exC2G.mNVal 0 +
                (![1, 2, 0] : Fin 3 → ℕ) 0 : ℕ) : ℤ) * 3 + 0),
             exC2G.mField (((((![1, 2, 0] : Fin 3 → ℕ) 2 * exC2G.mNVal 1 +
                (![1, 2, 0] : Fin 3 → ℕ) 1) * exC2G.mNVal 0 +
                (![1, 2, 0] : Fin 3 → ℕ) 0 : ℕ) : ℤ) * 3 + 1),
             exC2G.mField (((((![1, 2, 0] : Fin 3 → ℕ) 2 * exC2G.mNVal 1 +
                (![1, 2, 0] : Fin 3 → ℕ) 1) * exC2G.mNVal 0 +
                (![1, 2, 0] : Fin 3 → ℕ) 0 : ℕ) : ℤ) * 3 + 2)] :=
  ⟨⟨by decide, by decide, by decide,
    by
      intro i
      fin_cases i <;>
        norm_num [exC2G, Matrix.cons_val_zero, Matrix.cons_val_one, Matrix.head_cons,
          Matrix.cons_val_two, Matrix.tail_cons],
    by decide⟩,
    claim_C2 (fun _ => (0 : ℚ)) (0, 0) exC2G (by decide) (by decide) (by decide)
      (by
        intro i
        fin_cases i <;>
          norm_num [exC2G, Matrix.cons_val_zero, Matrix.cons_val_one, Matrix.head_cons,
            Matrix.cons_val_two, Matrix.tail_cons])
      ![1, 2, 0] (by decide)⟩

/-! ### C1: value-query dispatch -/

/-- The daughter scan returns the first in-bounds child's recursive answer. -/
theorem CD3GetESubs_first (sq : α → α) (junk : α × α) (c : Vec3 α)
    (pre : List (CD3Data α)) (child : CD3Data α) (post : List (CD3Data α))
    (hpre : ∀ s ∈ pre, PtInBounds s.head c = false)
    (hc : PtInBounds child.head c = true) :
    CD3GetESubs sq junk (pre ++ child :: post) c =
      some (CD3GetEAtPoint sq junk child c) := by
  induction pre with
  | nil =>
    rw [List.nil_append, CD3GetESubs, if_pos hc]
  | cons s rest ih =>
    have hs := hpre s (List.mem_cons_self s rest)
    rw [List.cons_append, CD3GetESubs, if_neg (by simp [hs])]
    exact ih fun x hx => hpre x (List.mem_cons_of_mem s hx)

/-- The daughter scan misses when no child's bounds contain the point. -/
theorem CD3GetESubs_none (sq : α → α) (junk : α × α) (c : Vec3 α)
    (subs : List (CD3Data α))
    (h : ∀ s ∈ subs, PtInBounds s.head c = false) :
    CD3GetESubs sq junk subs c = none := by
  induction subs with
  | nil => rw [CD3GetESubs]
  | cons s rest ih =>
    have hs := h s (List.mem_cons_self s rest)
    rw [CD3GetESubs, if_neg (by simp [hs])]
    exact ih fun x hx => h x (List.mem_cons_of_mem s hx)

/-- The pure-grouping node of the C1 counterexample, tag `kCD3Unused = 2`
("actual data part unused, only bounds valid"), bounds `[0,2]³`. -/
def exC1GroupN : CD3Node ℚ :=
  ⟨2, ![1, 1, 1], ![0, 0, 0], ![2, 2, 2], ![1, 1, 1], 0, fun _ => 0, "group"⟩

/-- A valid full-3D node with constant field 7 on `[0,2]³`. -/
def exC1ChildN : CD3Node ℚ :=
  ⟨1, ![3, 3, 3], ![0, 0, 0], ![2, 2, 2], ![1, 1, 1], 0, fun _ => 7, "child"⟩

/-- The child as a leaf tree. -/
def exC1Child : CD3Data ℚ := .node exC1ChildN []

/-- The counterexample tree: an `Unused` grouping node holding one child whose
bounds contain the query point. -/
def exC1Root : CD3Data ℚ := .node exC1GroupN [exC1Child]

/-- C1 counterexample: at the interior point `(1,1,1)`, the pure grouping node
(tag `kCD3Unused`) does NOT dispatch to its containing child —
`CD3GetEAtPoint` rejects any tag above 1 before scanning children and fails,
although the child itself answers `(7,7,7)`. -/
theorem claim_C1_cex :
    CD3GetEAtPoint (fun _ => (0 : ℚ)) (0, 0) exC1Root ![1, 1, 1] = none ∧
    PtInBounds exC1Child.head ![1, 1, 1] = true ∧
    CD3GetEAtPoint (fun _ => (0 : ℚ)) (0, 0) exC1Child ![1, 1, 1] = some ![7, 7, 7] := by
  refine ⟨?_, by decide, ?_⟩
  · rw [show exC1Root = .node exC1GroupN [exC1Child] from rfl, CD3GetEAtPoint]
    rw [if_pos (by decide : 1 < exC1GroupN.mType)]
  · have hpt : (![1, 1, 1] : Vec3 ℚ) =
        fun i => exC1ChildN.mMin i + (((![1, 1, 1] : Fin 3 → ℕ) i : ℕ) : ℚ) * exC1ChildN.mDelta i := by
      funext i
      fin_cases i <;>
        norm_num [exC1ChildN, Matrix.cons_val_zero, Matrix.cons_val_one, Matrix.head_cons,
          Matrix.cons_val_two, Matrix.tail_cons]
    rw [show exC1Child = .node exC1ChildN [] from rfl, hpt, CD3GetEAtPoint_leaf,
      if_neg (by decide), lattice_inBounds exC1ChildN (by decide)
        (by
          intro i
          fin_cases i <;>
            norm_num [exC1ChildN, Matrix.cons_val_zero, Matrix.cons_val_one, Matrix.head_cons,
              Matrix.cons_val_two, Matrix.tail_cons])
        ![1, 1, 1] (by decide),
      if_pos rfl, if_neg (by decide),
      Get3DEAtPoint_lattice exC1ChildN (by decide)
        (by decide)
        (by
          intro i
          fin_cases i <;>
            norm_num [exC1ChildN, Matrix.cons_val_zero, Matrix.cons_val_one, Matrix.head_cons,
              Matrix.cons_val_two, Matrix.tail_cons])
        ![1, 1, 1] (by decide)]
    decide

/-- C1 (amended): for a node whose type tag is 0 or 1, `CD3GetEAtPoint` scans
the children in insertion order, and the first child whose bounds contain the
point is queried recursively; when no child contains the point the node itself
answers through its own interpolation (axisymmetric for tag 0, trilinear for
tag 1) if the point is in its bounds and fails otherwise.  A node with any
other tag — including the `Unused` pure-grouping tag — fails immediately
without consulting its children. -/
theorem claim_C1 (sq : α → α) (junk : α × α) (g : CD3Node α) (c : Vec3 α)
    (hty : g.mType ≤ 1) :
    (∀ pre child post, (∀ s ∈ pre, PtInBounds s.head c = false) →
      PtInBounds child.head c = true →
      CD3GetEAtPoint sq junk (.node g (pre ++ child :: post)) c =
        CD3GetEAtPoint sq junk child c) ∧
    (∀ subs : List (CD3Data α), (∀ s ∈ subs, PtInBounds s.head c = false) →
      CD3GetEAtPoint sq junk (.node g subs) c =
        if PtInBounds g c then
          (if g.mType = 0 then GetAxEAtPoint sq junk g c else Get3DEAtPoint g c)
        else none) := by
  have hng : ¬ 1 < g.mType := by omega
  constructor
  · intro pre child post hpre hc
    rw [CD3GetEAtPoint, if_neg hng, CD3GetESubs_first sq junk c pre child post hpre hc]
  · intro subs hsubs
    rw [CD3GetEAtPoint, if_neg hng, CD3GetESubs_none sq junk c subs hsubs]

/-- Parent for the C1 witness, data-carrying, bounds `[0,4]³`. -/
def exC1PN : CD3Node ℚ :=
  ⟨1, ![5, 5, 5], ![0, 0, 0], ![4, 4, 4], ![1, 1, 1], 0, fun _ => 1, "parent"⟩

/-- First-inserted child of the witness tree, bounds `[0,2]³` (misses the
query point `(3,3,3)`). -/
def exC1A : CD3Data ℚ :=
  .node ⟨1, ![3, 3, 3], ![0, 0, 0], ![2, 2, 2], ![1, 1, 1], 0, fun _ => 2, "A1"⟩ []

/-- Second child of the witness tree, bounds `[2,4]³` (contains the query
point). -/
def exC1B : CD3Data ℚ :=
  .node ⟨1, ![3, 3, 3], ![2, 2, 2], ![4, 4, 4], ![1, 1, 1], 0, fun _ => 3, "B1"⟩ []

/-- Witness for C1: with one missing child before it, the second child is the
first containing child and answers the query. -/
theorem claim_C1_witness :
    (exC1PN.mType ≤ 1 ∧ (∀ s ∈ [exC1A], PtInBounds s.head ![3, 3, 3] = false) ∧
      PtInBounds exC1B.head ![3, 3, 3] = true) ∧
    CD3GetEAtPoint (fun _ => (0 : ℚ)) (0, 0)
        (.node exC1PN ([exC1A] ++ exC1B :: [])) ![3, 3, 3] =
      CD3GetEAtPoint (fun _ => (0 : ℚ)) (0, 0) exC1B ![3, 3, 3] :=
  ⟨⟨by decide, by decide, by decide⟩,
    (claim_C1 (fun _ => (0 : ℚ)) (0, 0) exC1PN ![3, 3, 3] (by decide)).1
      [exC1A] exC1B [] (by decide) (by decide)⟩

/-! ### C9: provenance-name lookup -/

/-- `find?` over the containment test returns the first containing child. -/
theorem find_first_containing (c : Vec3 α) (pre : List (CD3Data α))
    (child : CD3Data α) (post : List (CD3Data α))
    (hpre : ∀ s ∈ pre, PtInBounds s.head c = false)
    (hc : PtInBounds child.head c = true) :
    (pre ++ child :: post).find? (fun s => PtInBounds s.head c) = some child := by
  induction pre with
  | nil =>
    rw [List.nil_append]
    exact List.find?_cons_of_pos _ (by simp [hc])
  | cons s rest ih =>
    have hs := hpre s (List.mem_cons_self s rest)
    rw [List.cons_append, List.find?_cons_of_neg _ (by simp [hs])]
    exact ih fun x hx => hpre x (List.mem_cons_of_mem s hx)

/-- `find?` over the containment test misses when no child contains the
point. -/
theorem find_none_containing (c : Vec3 α) (subs : List (CD3Data α))
    (h : ∀ s ∈ subs, PtInBounds s.head c = false) :
    subs.find? (fun s => PtInBounds s.head c) = none := by
  rw [List.find?_eq_none]
  intro x hx
  simp [h x hx]

/-- Grandchild of the C9 counterexample tree: leaf on `[0,2]³`, constant
field 3, named "B". -/
def exC9BN : CD3Node ℚ :=
  ⟨1, ![3, 3, 3], ![0, 0, 0], ![2, 2, 2], ![1, 1, 1], 0, fun _ => 3, "B"⟩

/-- The grandchild as a tree. -/
def exC9B : CD3Data ℚ := .node exC9BN []

/-- Intermediate child: `[0,4]³`, named "A", holding B. -/
def exC9AN : CD3Node ℚ :=
  ⟨1, ![5, 5, 5], ![0, 0, 0], ![4, 4, 4], ![1, 1, 1], 0, fun _ => 1, "A"⟩

/-- The intermediate child as a tree. -/
def exC9A : CD3Data ℚ := .node exC9AN [exC9B]

/-- Root of the C9 counterexample: `[0,8]³`, named "R", holding A. -/
def exC9RootN : CD3Node ℚ :=
  ⟨1, ![9, 9, 9], ![0, 0, 0], ![8, 8, 8], ![1, 1, 1], 0, fun _ => 0, "R"⟩

/-- The counterexample tree R → A → B. -/
def exC9Root : CD3Data ℚ := .node exC9RootN [exC9A]

/-- C9 counterexample: at `(1,1,1)` the value query on R recurses two levels
and is answered by grandchild B's interpolation (constant 3), but the name
query on R returns the intermediate child's name "A", not the answering
node's name "B". -/
theorem claim_C9_cex :
    CD3GetEAtPoint (fun _ => (0 : ℚ)) (0, 0) exC9Root ![1, 1, 1] = some ![3, 3, 3] ∧
    exC9BN.mFieldName = "B" ∧
    CD3GetNameAtPoint exC9Root ![1, 1, 1] = "A" := by
  refine ⟨?_, rfl, by decide⟩
  rw [show exC9Root = CD3Data.node exC9RootN [exC9A] from rfl, CD3GetEAtPoint,
    if_neg (by decide : ¬ 1 < exC9RootN.mType), CD3GetESubs,
    if_pos (by decide : PtInBounds exC9A.head ![1, 1, 1] = true)]
  show CD3GetEAtPoint (fun _ => (0 : ℚ)) (0, 0) exC9A ![1, 1, 1] = some ![3, 3, 3]
  rw [show exC9A = CD3Data.node exC9AN [exC9B] from rfl, CD3GetEAtPoint,
    if_neg (by decide : ¬ 1 < exC9AN.mType), CD3GetESubs,
    if_pos (by decide : PtInBounds exC9B.head ![1, 1, 1] = true)]
  show CD3GetEAtPoint (fun _ => (0 : ℚ)) (0, 0) exC9B ![1, 1, 1] = some ![3, 3, 3]
  have hpt : (![1, 1, 1] : Vec3 ℚ) =
      fun i => exC9BN.mMin i + (((![1, 1, 1] : Fin 3 → ℕ) i : ℕ) : ℚ) * exC9BN.mDelta i := by
    funext i
    fin_cases i <;>
      norm_num [exC9BN, Matrix.cons_val_zero, Matrix.cons_val_one, Matrix.head_cons,
        Matrix.cons_val_two, Matrix.tail_cons]
  rw [show exC9B = CD3Data.node exC9BN [] from rfl, hpt, CD3GetEAtPoint_leaf,
    if_neg (by decide), lattice_inBounds exC9BN (by decide)
      (by
        intro i
        fin_cases i <;>
          norm_num [exC9BN, Matrix.cons_val_zero, Matrix.cons_val_one, Matrix.head_cons,
            Matrix.cons_val_two, Matrix.tail_cons])
      ![1, 1, 1] (by decide),
    if_pos rfl, if_neg (by decide),
    Get3DEAtPoint_lattice exC9BN (by decide)
      (by decide)
      (by
        intro i
        fin_cases i <;>
          norm_num [exC9BN, Matrix.cons_val_zero, Matrix.cons_val_one, Matrix.head_cons,
            Matrix.cons_val_two, Matrix.tail_cons])
      ![1, 1, 1] (by decide)]
  decide

/-- C9 (amended): `CD3GetNameAtPoint` uses the same type-tag guard and the
same first-containing-child scan as the value query, but without recursion:
the first child whose bounds contain the point answers with that CHILD's own
provenance name (whatever its depth of further nesting), and when no child
contains the point the node's own name answers if the point is in the node's
bounds, else the fixed miss string. -/
theorem claim_C9 (g : CD3Node α) (c : Vec3 α) (hty : g.mType ≤ 1) :
    (∀ pre child post, (∀ s ∈ pre, PtInBounds s.head c = false) →
      PtInBounds child.head c = true →
      CD3GetNameAtPoint (.node g (pre ++ child :: post)) c = child.head.mFieldName) ∧
    (∀ subs : List (CD3Data α), (∀ s ∈ subs, PtInBounds s.head c = false) →
      CD3GetNameAtPoint (.node g subs) c =
        if PtInBounds g c then g.mFieldName else "No field found") := by
  have hng : ¬ 1 < g.mType := by omega
  constructor
  · intro pre child post hpre hc
    rw [CD3GetNameAtPoint, if_neg hng, find_first_containing c pre child post hpre hc]
  · intro subs hsubs
    rw [CD3GetNameAtPoint, if_neg hng, find_none_containing c subs hsubs]

/-- Witness for C9: on the R → A → B tree, the name query at `(1,1,1)` on R
answers with A's name by the first conjunct of the amended statement. -/
theorem claim_C9_witness :
    (exC9RootN.mType ≤ 1 ∧ (∀ s ∈ ([] : List (CD3Data ℚ)), PtInBounds s.head ![1, 1, 1] = false) ∧
      PtInBounds exC9A.head ![1, 1, 1] = true) ∧
    CD3GetNameAtPoint (.node exC9RootN ([] ++ exC9A :: [])) ![1, 1, 1] =
      exC9A.head.mFieldName :=
  ⟨⟨by decide, by decide, by decide⟩,
    (claim_C9 exC9RootN ![1, 1, 1] (by decide)).1 [] exC9A [] (by decide) (by decide)⟩

/-! ### C4: binary round-trip -/

set_option maxRecDepth 4000 in
/-- C4 counterexample: for a 63-byte source name and a nonzero uninitialized
byte, the 64-byte header name field written by `CD3WriteBinary` contains no
NUL at all — `strncpy(dst, src, 63)` copies 63 bytes without terminator, and
byte 63 of the malloc'd header is never written. -/
theorem claim_C4_cex :
    (headerName (some (List.replicate 63 65)) 66 []).length = 64 ∧
    ∀ b ∈ headerName (some (List.replicate 63 65)) 66 [], b ≠ 0 := by
  decide

/-- C4 (amended): writing a valid field (type 0 or 1, active dimensions
consistent with the tag, `max > min` and `delta > 0` on active axes) and
reading the image back reproduces kind, extents counts, mins, maxes, deltas,
stride, and every payload sample; a header name shorter than 63 bytes gets a
NUL at its end inside the field, while for a source name of 63 bytes or more
byte 63 of the field keeps the uninitialized value, so NUL termination is not
guaranteed. -/
theorem claim_C4 (d : CD3Node α) (mn fn : List ℕ) (jM jF : ℕ) (jMA jFA : List ℕ)
    (junkName : String) (junkOut : ℤ → α)
    (hty : d.mType = 0 ∨ d.mType = 1)
    (hdims : ∀ i : Fin 3, 1 < d.mNVal i → (d.mMin i < d.mMax i ∧ 0 < d.mDelta i))
    (hact : (d.mType = 0 → (Finset.univ.filter fun i : Fin 3 => 1 < d.mNVal i).card = 2) ∧
      (d.mType = 1 → (Finset.univ.filter fun i : Fin 3 => 1 < d.mNVal i).card = 3)) :
    ∃ f : CD3BinFile α, CD3WriteBinary (some mn) (some fn) jM jF jMA jFA d = some f ∧
      ∃ g : CD3Node α, CD3ReadBinary junkName junkOut f = some g ∧
        g.mType = d.mType ∧ g.mNVal = d.mNVal ∧ g.mMin = d.mMin ∧ g.mMax = d.mMax ∧
        g.mDelta = d.mDelta ∧ g.mStride = d.mStride ∧
        (∀ k : ℕ, k < npointOf d.mType d.mNVal → g.mField (k : ℤ) = d.mField (k : ℤ)) ∧
        (fn.length < 63 → f.fileName.getD fn.length 0 = 0) ∧
        (63 ≤ fn.length → f.fileName.getD 63 0 = jF) := by
  have hdim : ¬ ∃ i : Fin 3, 1 < d.mNVal i ∧ (d.mMax i ≤ d.mMin i ∨ d.mDelta i ≤ 0) := by
    rintro ⟨i, h1, h | h⟩
    · exact absurd h (not_le.mpr (hdims i h1).1)
    · exact absurd h (not_le.mpr (hdims i h1).2)
  have hcard : ¬ ((d.mType = 0 ∧ (Finset.univ.filter fun i : Fin 3 => 1 < d.mNVal i).card ≠ 2) ∨
      (d.mType = 1 ∧ (Finset.univ.filter fun i : Fin 3 => 1 < d.mNVal i).card ≠ 3)) := by
    rintro (⟨h0, hn⟩ | ⟨h1, hn⟩)
    · exact hn (hact.1 h0)
    · exact hn (hact.2 h1)
  unfold CD3WriteBinary
  rw [if_pos hty]
  refine ⟨_, rfl, ?_⟩
  unfold CD3ReadBinary
  dsimp only
  rw [if_neg (by simp : ¬ gCD3Magic ≠ gCD3Magic), if_neg (not_not_intro hty),
    if_neg hdim, if_neg hcard,
    if_neg (by
      rw [List.length_map, List.length_range]
      exact lt_irrefl _)]
  refine ⟨_, rfl, rfl, rfl, rfl, rfl, rfl, rfl, ?_, ?_, ?_⟩
  · intro k hk
    dsimp only
    rw [if_pos ⟨Int.natCast_nonneg k, by exact_mod_cast hk⟩]
    simp [List.getD_eq_getElem?_getD, List.getElem?_range, hk]
  · intro h
    simp only [headerName, strncpy63]
    rw [List.take_of_length_le (le_of_lt h), List.append_assoc,
      List.getD_eq_getElem?_getD, List.getElem?_append_right (le_refl _), Nat.sub_self,
      show 63 - fn.length = (62 - fn.length) + 1 from by omega, List.replicate_succ,
      List.cons_append, List.getElem?_cons_zero]
    rfl
  · intro h
    simp only [headerName, strncpy63]
    have hlt : (fn.take 63).length = 63 := by
      rw [List.length_take]
      omega
    rw [show 63 - fn.length = 0 from by omega, List.replicate_zero, List.append_nil,
      List.getD_eq_getElem?_getD, List.getElem?_append_right hlt.le, hlt,
      Nat.sub_self, List.getElem?_cons_zero]
    rfl

/-- Concrete field for the C4 witness: full-3D 2×2×2 grid, samples `k`. -/
def exC4N : CD3Node ℚ :=
  ⟨1, ![2, 2, 2], ![0, 0, 0], ![1, 1, 1], ![1, 1, 1], 0, fun k => (k : ℚ), "w"⟩

/-- Witness for C4: the round-trip on the concrete 2×2×2 field with a 2-byte
name, all validity hypotheses checked concretely. -/
theorem claim_C4_witness :
    ((exC4N.mType = 0 ∨ exC4N.mType = 1) ∧
      (∀ i : Fin 3, 1 < exC4N.mNVal i → (exC4N.mMin i < exC4N.mMax i ∧ 0 < exC4N.mDelta i)) ∧
      (exC4N.mType = 0 → (Finset.univ.filter fun i : Fin 3 => 1 < exC4N.mNVal i).card = 2) ∧
      (exC4N.mType = 1 → (Finset.univ.filter fun i : Fin 3 => 1 < exC4N.mNVal i).card = 3)) ∧
    ∃ f : CD3BinFile ℚ, CD3WriteBinary (some [67]) (some [65, 66]) 5 6 [] [] exC4N = some f ∧
      ∃ g : CD3Node ℚ, CD3ReadBinary "junk" (fun _ => 0) f = some g ∧
        g.mType = exC4N.mType ∧ g.mNVal = exC4N.mNVal ∧ g.mMin = exC4N.mMin ∧
        g.mMax = exC4N.mMax ∧ g.mDelta = exC4N.mDelta ∧ g.mStride = exC4N.mStride ∧
        (∀ k : ℕ, k < npointOf exC4N.mType exC4N.mNVal →
          g.mField (k : ℤ) = exC4N.mField (k : ℤ)) ∧
        (([65, 66] : List ℕ).length < 63 → f.fileName.getD ([65, 66] : List ℕ).length 0 = 0) ∧
        (63 ≤ ([65, 66] : List ℕ).length → f.fileName.getD 63 0 = 6) :=
  ⟨⟨by decide, by decide, by decide, by decide⟩,
    claim_C4 exC4N [67] [65, 66] 5 6 [] [] "junk" (fun _ => 0) (by decide) (by decide)
      ⟨by decide, by decide⟩⟩

/-! ### C5: the smoother never writes fixed points -/

/-- An invariant preserved by every step of a fold is preserved by the
fold. -/
theorem list_foldl_pres {β : Type} {γ : Type} (P : β → Prop) (f : β → γ → β)
    (l : List γ) (hf : ∀ s x, P s → P (f s x)) : ∀ s, P s → P (l.foldl f s) := by
  induction l with
  | nil => exact fun s hs => hs
  | cons x xs ih => exact fun s hs => ih (f s x) (hf s x hs)

/-- A zero entry preserved by every step of a fold over type arrays. -/
theorem foldl_zero_pres (f : (ℕ → ℕ) → ℕ → ℕ → ℕ) (l : List ℕ) (r : ℕ)
    (hf : ∀ t x, t r = 0 → f t x r = 0) : ∀ t, t r = 0 → (l.foldl f t) r = 0 := by
  induction l with
  | nil => exact fun t ht => ht
  | cons x xs ih => exact fun t ht => ih (f t x) (hf t x ht)

/-- A zero entry established by some step of a fold over type arrays, and
preserved by every step, holds of the fold. -/
theorem foldl_zero_estab (f : (ℕ → ℕ) → ℕ → ℕ → ℕ) (r : ℕ)
    (hpres : ∀ t x, t r = 0 → f t x r = 0) :
    ∀ (l : List ℕ) (t : ℕ → ℕ) (x : ℕ), x ∈ l → (∀ t2, f t2 x r = 0) →
      (l.foldl f t) r = 0 := by
  intro l
  induction l with
  | nil =>
    intro t x hx _
    exact absurd hx (List.not_mem_nil x)
  | cons y ys ih =>
    intro t x hx hest
    rw [List.foldl_cons]
    rcases List.mem_cons.mp hx with h | h
    · subst h
      exact foldl_zero_pres f ys r hpres (f t x) (hest t)
    · exact ih (f t y) x h hest

/-- A point whose type entry is 0 is never written by the loop body: the
update at any grid site leaves all three components of the fixed point's
vector slot unchanged. -/
theorem gsPointUpdate_frame (wx wy wz : α) (nx ny : ℕ) (pt : ℕ → ℕ)
    (s : (ℤ → α) × α) (iz iy ix : ℕ) (r0 : ℕ) (h0 : pt r0 = 0) (j : ℤ)
    (hj : j = 3 * (r0 : ℤ) ∨ j = 3 * (r0 : ℤ) + 1 ∨ j = 3 * (r0 : ℤ) + 2) :
    (gsPointUpdate wx wy wz nx ny pt s iz iy ix).1 j = s.1 j := by
  unfold gsPointUpdate
  generalize (iz * ny + iy) * nx + ix = rI
  by_cases hrz : pt rI = 0
  · rw [if_pos hrz]
  · rw [if_neg hrz]
    by_cases h1 : pt rI = 1
    · rw [if_pos h1]
      have hne : (rI : ℤ) ≠ (r0 : ℤ) := by
        have hne2 : rI ≠ r0 := fun he => hrz (he ▸ h0)
        exact_mod_cast hne2
      simp only [List.foldl_cons, List.foldl_nil]
      rcases hj with hj | hj | hj <;>
        rw [if_neg (by omega), if_neg (by omega), if_neg (by omega)]
    · rw [if_neg h1]

/-- A half sweep leaves every component of a type-0 point unchanged. -/
theorem gsSweep_frame (wx wy wz : α) (nVal : Fin 3 → ℕ) (pt : ℕ → ℕ) (off : ℕ)
    (r0 : ℕ) (h0 : pt r0 = 0) (j : ℤ)
    (hj : j = 3 * (r0 : ℤ) ∨ j = 3 * (r0 : ℤ) + 1 ∨ j = 3 * (r0 : ℤ) + 2)
    (s : (ℤ → α) × α) :
    (gsSweep wx wy wz nVal pt off s).1 j = s.1 j := by
  unfold gsSweep
  refine list_foldl_pres (fun u => u.1 j = s.1 j) _ _ (fun s2 iz h2 => ?_) s rfl
  refine list_foldl_pres (fun u => u.1 j = s.1 j) _ _ (fun s3 iy h3 => ?_) s2 h2
  refine list_foldl_pres (fun u => u.1 j = s.1 j) _ _ (fun s4 ix h4 => ?_) s3 h3
  exact (gsPointUpdate_frame wx wy wz (nVal 0) (nVal 1) pt s4 iz iy ix r0 h0 j hj).trans h4

/-- A full pass leaves every component of a type-0 point unchanged. -/
theorem gsPass_frame (wx wy wz : α) (nVal : Fin 3 → ℕ) (pt : ℕ → ℕ)
    (r0 : ℕ) (h0 : pt r0 = 0) (j : ℤ)
    (hj : j = 3 * (r0 : ℤ) ∨ j = 3 * (r0 : ℤ) + 1 ∨ j = 3 * (r0 : ℤ) + 2)
    (a : ℤ → α) :
    (gsPass wx wy wz nVal pt a).1 j = a j := by
  unfold gsPass
  rw [gsSweep_frame wx wy wz nVal pt 1 r0 h0 j hj,
    gsSweep_frame wx wy wz nVal pt 0 r0 h0 j hj]

/-- Any number of passes leaves every component of a type-0 point
unchanged. -/
theorem gsRun_frame (wx wy wz : α) (nVal : Fin 3 → ℕ) (pt : ℕ → ℕ) (r0 : ℕ)
    (h0 : pt r0 = 0) (j : ℤ)
    (hj : j = 3 * (r0 : ℤ) ∨ j = 3 * (r0 : ℤ) + 1 ∨ j = 3 * (r0 : ℤ) + 2) :
    ∀ (n : ℕ) (a : ℤ → α), (gsRun wx wy wz nVal pt n a).1 j = a j := by
  intro n
  induction n with
  | zero =>
    intro a
    rw [gsRun]
  | succ m ih =>
    intro a
    rw [gsRun]
    dsimp only
    rw [ih, gsPass_frame wx wy wz nVal pt r0 h0 j hj]

/-- `NewTypeArray` marks every boundary-layer point fixed (type 0). -/
theorem NewTypeArray_boundary (nVal : Fin 3 → ℕ) (ix iy iz : ℕ)
    (hx : ix < nVal 0) (hy : iy < nVal 1) (hzz : iz < nVal 2)
    (hb : ix = 0 ∨ ix = nVal 0 - 1 ∨ iy = 0 ∨ iy = nVal 1 - 1 ∨ iz = 0 ∨ iz = nVal 2 - 1) :
    NewTypeArray nVal ((iz * nVal 1 + iy) * nVal 0 + ix) = 0 := by
  have hkeep : ∀ (t : ℕ → ℕ) (i r : ℕ), t r = 0 → setZeroAt t i r = 0 := by
    intro t i r h
    unfold setZeroAt
    by_cases he : r = i
    · rw [if_pos he]
    · rw [if_neg he]
      exact h
  have hmake : ∀ (t : ℕ → ℕ) (i r : ℕ), r = i → setZeroAt t i r = 0 := by
    intro t i r h
    unfold setZeroAt
    rw [if_pos h]
  have hpair : ∀ (t : ℕ → ℕ) (i1 i2 r : ℕ), t r = 0 →
      setZeroAt (setZeroAt t i1) i2 r = 0 :=
    fun t i1 i2 r h => hkeep _ _ _ (hkeep _ _ _ h)
  unfold NewTypeArray
  rcases hb with h | h | h | h | h | h
  · subst h
    refine foldl_zero_estab _ _
      (fun t k ht => foldl_zero_pres _ _ _ (fun t2 k2 ht2 => hpair _ _ _ _ ht2) t ht)
      _ _ iz (List.mem_range.mpr hzz) (fun t => ?_)
    refine foldl_zero_estab _ _ (fun t2 k2 ht2 => hpair _ _ _ _ ht2)
      _ _ iy (List.mem_range.mpr hy) (fun t2 => ?_)
    exact hkeep _ _ _ (hmake _ _ _ rfl)
  · subst h
    refine foldl_zero_estab _ _
      (fun t k ht => foldl_zero_pres _ _ _ (fun t2 k2 ht2 => hpair _ _ _ _ ht2) t ht)
      _ _ iz (List.mem_range.mpr hzz) (fun t => ?_)
    refine foldl_zero_estab _ _ (fun t2 k2 ht2 => hpair _ _ _ _ ht2)
      _ _ iy (List.mem_range.mpr hy) (fun t2 => ?_)
    exact hmake _ _ _ rfl
  · subst h
    refine foldl_zero_pres _ _ _
      (fun t k ht => foldl_zero_pres _ _ _ (fun t2 k2 ht2 => hpair _ _ _ _ ht2) t ht) _ ?_
    refine foldl_zero_estab _ _
      (fun t k ht => foldl_zero_pres _ _ _ (fun t2 k2 ht2 => hpair _ _ _ _ ht2) t ht)
      _ _ iz (List.mem_range.mpr hzz) (fun t => ?_)
    refine foldl_zero_estab _ _ (fun t2 k2 ht2 => hpair _ _ _ _ ht2)
      _ _ ix (List.mem_range.mpr hx) (fun t2 => ?_)
    exact hkeep _ _ _ (hmake _ _ _ rfl)
  · subst h
    refine foldl_zero_pres _ _ _
      (fun t k ht => foldl_zero_pres _ _ _ (fun t2 k2 ht2 => hpair _ _ _ _ ht2) t ht) _ ?_
    refine foldl_zero_estab _ _
      (fun t k ht => foldl_zero_pres _ _ _ (fun t2 k2 ht2 => hpair _ _ _ _ ht2) t ht)
      _ _ iz (List.mem_range.mpr hzz) (fun t => ?_)
    refine foldl_zero_estab _ _ (fun t2 k2 ht2 => hpair _ _ _ _ ht2)
      _ _ ix (List.mem_range.mpr hx) (fun t2 => ?_)
    exact hmake _ _ _ rfl
  · subst h
    refine foldl_zero_pres _ _ _
      (fun t k ht => foldl_zero_pres _ _ _ (fun t2 k2 ht2 => hpair _ _ _ _ ht2) t ht) _ ?_
    refine foldl_zero_pres _ _ _
      (fun t k ht => foldl_zero_pres _ _ _ (fun t2 k2 ht2 => hpair _ _ _ _ ht2) t ht) _ ?_
    refine foldl_zero_estab _ _
      (fun t k ht => foldl_zero_pres _ _ _ (fun t2 k2 ht2 => hpair _ _ _ _ ht2) t ht)
      _ _ iy (List.mem_range.mpr hy) (fun t => ?_)
    refine foldl_zero_estab _ _ (fun t2 k2 ht2 => hpair _ _ _ _ ht2)
      _ _ ix (List.mem_range.mpr hx) (fun t2 => ?_)
    exact hmake _ _ _ rfl
  · subst h
    refine foldl_zero_pres _ _ _
      (fun t k ht => foldl_zero_pres _ _ _ (fun t2 k2 ht2 => hpair _ _ _ _ ht2) t ht) _ ?_
    refine foldl_zero_pres _ _ _
      (fun t k ht => foldl_zero_pres _ _ _ (fun t2 k2 ht2 => hpair _ _ _ _ ht2) t ht) _ ?_
    refine foldl_zero_estab _ _
      (fun t k ht => foldl_zero_pres _ _ _ (fun t2 k2 ht2 => hpair _ _ _ _ ht2) t ht)
      _ _ iy (List.mem_range.mpr hy) (fun t => ?_)
    refine foldl_zero_estab _ _ (fun t2 k2 ht2 => hpair _ _ _ _ ht2)
      _ _ ix (List.mem_range.mpr hx) (fun t2 => ?_)
    exact hkeep _ _ _ (hmake _ _ _ rfl)

/-- C5: `GSSmooth` never modifies fixed points: on a full-3D leaf, for a grid
site that is geometry-marked or lies in the boundary layer (index 0 or
count−1 on some axis) and any pass count, each of the three components of
that site's vector is unchanged. -/
theorem claim_C5 (geo : ℕ → Bool) (g : CD3Node α) (hstride : g.mStride = 0)
    (nPass : ℕ) (ix iy iz : ℕ)
    (hx : ix < g.mNVal 0) (hy : iy < g.mNVal 1) (hz : iz < g.mNVal 2)
    (hfix : geo ((iz * g.mNVal 1 + iy) * g.mNVal 0 + ix) = true ∨
      (ix = 0 ∨ ix = g.mNVal 0 - 1 ∨ iy = 0 ∨ iy = g.mNVal 1 - 1 ∨
        iz = 0 ∨ iz = g.mNVal 2 - 1))
    (comp : ℤ) (hcomp : comp = 0 ∨ comp = 1 ∨ comp = 2) :
    (GSSmooth (some geo) (.node g []) nPass).2.1
        (3 * (((iz * g.mNVal 1 + iy) * g.mNVal 0 + ix : ℕ) : ℤ) + comp) =
      g.mField (3 * (((iz * g.mNVal 1 + iy) * g.mNVal 0 + ix : ℕ) : ℤ) + comp) := by
  have h0 : (fun r => if geo r then 0 else NewTypeArray g.mNVal r)
      ((iz * g.mNVal 1 + iy) * g.mNVal 0 + ix) = 0 := by
    dsimp only
    rcases hfix with hg | hb
    · rw [if_pos hg]
    · by_cases hg2 : geo ((iz * g.mNVal 1 + iy) * g.mNVal 0 + ix) = true
      · rw [if_pos hg2]
      · rw [if_neg hg2]
        exact NewTypeArray_boundary g.mNVal ix iy iz hx hy hz hb
  have hj : 3 * (((iz * g.mNVal 1 + iy) * g.mNVal 0 + ix : ℕ) : ℤ) + comp =
        3 * (((iz * g.mNVal 1 + iy) * g.mNVal 0 + ix : ℕ) : ℤ) ∨
      3 * (((iz * g.mNVal 1 + iy) * g.mNVal 0 + ix : ℕ) : ℤ) + comp =
        3 * (((iz * g.mNVal 1 + iy) * g.mNVal 0 + ix : ℕ) : ℤ) + 1 ∨
      3 * (((iz * g.mNVal 1 + iy) * g.mNVal 0 + ix : ℕ) : ℤ) + comp =
        3 * (((iz * g.mNVal 1 + iy) * g.mNVal 0 + ix : ℕ) : ℤ) + 2 := by
    rcases hcomp with h | h | h <;> omega
  unfold GSSmooth
  simp only [List.length_nil, lt_irrefl, if_false, hstride, ne_eq, not_true_eq_false,
    ite_false]
  exact gsRun_frame _ _ _ g.mNVal _ ((iz * g.mNVal 1 + iy) * g.mNVal 0 + ix) h0 _ hj
    nPass g.mField

/-- The 3×3×3 cube of C7: boundary samples 1, the single interior vector slot
(flat point index 13, components 39–41) 0. -/
def gsCubeN : CD3Node ℚ :=
  ⟨1, ![3, 3, 3], ![0, 0, 0], ![2, 2, 2], ![1, 1, 1], 0,
    fun j => if 39 ≤ j ∧ j < 42 then 0 else 1, "cube"⟩

/-- Witness for C5: the x-face point (0,1,1) of the cube keeps its first
component across two passes. -/
theorem claim_C5_witness :
    (gsCubeN.mStride = 0 ∧ (0 : ℕ) < gsCubeN.mNVal 0 ∧ (1 : ℕ) < gsCubeN.mNVal 1 ∧
      (1 : ℕ) < gsCubeN.mNVal 2 ∧
      ((0 : ℕ) = 0 ∨ 0 = gsCubeN.mNVal 0 - 1 ∨ (1 : ℕ) = 0 ∨ 1 = gsCubeN.mNVal 1 - 1 ∨
        (1 : ℕ) = 0 ∨ 1 = gsCubeN.mNVal 2 - 1) ∧
      ((0 : ℤ) = 0 ∨ (0 : ℤ) = 1 ∨ (0 : ℤ) = 2)) ∧
    (GSSmooth (some fun _ => false) (.node gsCubeN []) 2).2.1
        (3 * (((1 * gsCubeN.mNVal 1 + 1) * gsCubeN.mNVal 0 + 0 : ℕ) : ℤ) + 0) =
      gsCubeN.mField (3 * (((1 * gsCubeN.mNVal 1 + 1) * gsCubeN.mNVal 0 + 0 : ℕ) : ℤ) + 0) :=
  ⟨⟨rfl, by decide, by decide, by decide, by decide, by decide⟩,
    claim_C5 (fun _ => false) gsCubeN rfl 2 0 1 1 (by decide) (by decide) (by decide)
      (Or.inr (by decide)) 0 (by decide)⟩

/-! ### C7: the 3×3×3 smoothing scenario -/

set_option maxHeartbeats 1600000 in
/-- The point-type mask of the cube: free (1) only at the single interior
point 13, fixed (0) on the whole boundary layer. -/
theorem gsCube_mask : ∀ r < 27, NewTypeArray ![3, 3, 3] r = if r = 13 then 1 else 0 := by
  decide

set_option maxHeartbeats 3200000 in
/-- One pass on the initial cube: the interior vector becomes (1,1,1) and the
reported squared error is 3. -/
theorem gsCube_pass1 :
    gsPass (1 / 6 : ℚ) (1 / 6) (1 / 6) ![3, 3, 3] (fun r => NewTypeArray ![3, 3, 3] r)
      gsCubeN.mField =
      (fun j => if j = 39 ∨ j = 40 ∨ j = 41 then 1 else gsCubeN.mField j, 3) := by
  refine Prod.ext_iff.mpr ⟨?_, ?_⟩
  · funext j
    unfold gsPass gsSweep gsPointUpdate
    norm_num [show (List.range 3) = [0, 1, 2] from rfl, List.foldl_cons, List.foldl_nil,
      List.filter_cons, List.filter_nil, gsCube_mask, gsCubeN, Matrix.cons_val_zero,
      Matrix.cons_val_one, Matrix.head_cons, Matrix.cons_val_two, Matrix.tail_cons]
    split_ifs <;> first | rfl | (exfalso; omega)
  · unfold gsPass gsSweep gsPointUpdate
    norm_num [show (List.range 3) = [0, 1, 2] from rfl, List.foldl_cons, List.foldl_nil,
      List.filter_cons, List.filter_nil, gsCube_mask, gsCubeN, Matrix.cons_val_zero,
      Matrix.cons_val_one, Matrix.head_cons, Matrix.cons_val_two, Matrix.tail_cons]

set_option maxHeartbeats 3200000 in
/-- A second pass on the already-smoothed cube changes nothing and reports
error 0. -/
theorem gsCube_pass2 :
    gsPass (1 / 6 : ℚ) (1 / 6) (1 / 6) ![3, 3, 3] (fun r => NewTypeArray ![3, 3, 3] r)
      (fun j => if j = 39 ∨ j = 40 ∨ j = 41 then 1 else gsCubeN.mField j) =
      ((fun j => if j = 39 ∨ j = 40 ∨ j = 41 then 1 else gsCubeN.mField j), 0) := by
  refine Prod.ext_iff.mpr ⟨?_, ?_⟩
  · funext j
    unfold gsPass gsSweep gsPointUpdate
    norm_num [show (List.range 3) = [0, 1, 2] from rfl, List.foldl_cons, List.foldl_nil,
      List.filter_cons, List.filter_nil, gsCube_mask, gsCubeN, Matrix.cons_val_zero,
      Matrix.cons_val_one, Matrix.head_cons, Matrix.cons_val_two, Matrix.tail_cons]
    split_ifs <;> first | rfl | (exfalso; omega)
  · unfold gsPass gsSweep gsPointUpdate
    norm_num [show (List.range 3) = [0, 1, 2] from rfl, List.foldl_cons, List.foldl_nil,
      List.filter_cons, List.filter_nil, gsCube_mask, gsCubeN, Matrix.cons_val_zero,
      Matrix.cons_val_one, Matrix.head_cons, Matrix.cons_val_two, Matrix.tail_cons]

set_option maxHeartbeats 800000 in
/-- `GSSmooth` on the cube dispatches to the run with weights all 1/6 and the
boundary mask. -/
theorem gsCube_eval (n : ℕ) :
    GSSmooth (some fun _ => false) (.node gsCubeN []) n =
      (CDError.kCDNoErr,
        gsRun (1 / 6 : ℚ) (1 / 6) (1 / 6) ![3, 3, 3] (fun r => NewTypeArray ![3, 3, 3] r) n
          gsCubeN.mField) := by
  unfold GSSmooth
  norm_num [gsCubeN, Matrix.cons_val_zero, Matrix.cons_val_one, Matrix.head_cons,
    Matrix.cons_val_two, Matrix.tail_cons]

/-- One pass from the initial samples. -/
theorem gsCube_run1 :
    gsRun (1 / 6 : ℚ) (1 / 6) (1 / 6) ![3, 3, 3] (fun r => NewTypeArray ![3, 3, 3] r) 1
      gsCubeN.mField =
      ((fun j => if j = 39 ∨ j = 40 ∨ j = 41 then 1 else gsCubeN.mField j), [3]) := by
  have e : gsRun (1 / 6 : ℚ) (1 / 6) (1 / 6) ![3, 3, 3] (fun r => NewTypeArray ![3, 3, 3] r) 1
      gsCubeN.mField =
      gsRun (1 / 6 : ℚ) (1 / 6) (1 / 6) ![3, 3, 3] (fun r => NewTypeArray ![3, 3, 3] r) (0 + 1)
      gsCubeN.mField := rfl
  rw [e, gsRun]
  try dsimp only
  rw [gsCube_pass1]
  try dsimp only
  rw [gsRun]

/-- One pass from the smoothed samples. -/
theorem gsCube_run1L :
    gsRun (1 / 6 : ℚ) (1 / 6) (1 / 6) ![3, 3, 3] (fun r => NewTypeArray ![3, 3, 3] r) 1
      (fun j => if j = 39 ∨ j = 40 ∨ j = 41 then 1 else gsCubeN.mField j) =
      ((fun j => if j = 39 ∨ j = 40 ∨ j = 41 then 1 else gsCubeN.mField j), [0]) := by
  have e : gsRun (1 / 6 : ℚ) (1 / 6) (1 / 6) ![3, 3, 3] (fun r => NewTypeArray ![3, 3, 3] r) 1
      (fun j => if j = 39 ∨ j = 40 ∨ j = 41 then 1 else gsCubeN.mField j) =
      gsRun (1 / 6 : ℚ) (1 / 6) (1 / 6) ![3, 3, 3] (fun r => NewTypeArray ![3, 3, 3] r) (0 + 1)
      (fun j => if j = 39 ∨ j = 40 ∨ j = 41 then 1 else gsCubeN.mField j) := rfl
  rw [e, gsRun]
  try dsimp only
  rw [gsCube_pass2]
  try dsimp only
  rw [gsRun]

/-- Two passes from the initial samples: errors 3 then 0. -/
theorem gsCube_run2 :
    gsRun (1 / 6 : ℚ) (1 / 6) (1 / 6) ![3, 3, 3] (fun r => NewTypeArray ![3, 3, 3] r) 2
      gsCubeN.mField =
      ((fun j => if j = 39 ∨ j = 40 ∨ j = 41 then 1 else gsCubeN.mField j), [3, 0]) := by
  have e : gsRun (1 / 6 : ℚ) (1 / 6) (1 / 6) ![3, 3, 3] (fun r => NewTypeArray ![3, 3, 3] r) 2
      gsCubeN.mField =
      gsRun (1 / 6 : ℚ) (1 / 6) (1 / 6) ![3, 3, 3] (fun r => NewTypeArray ![3, 3, 3] r) (1 + 1)
      gsCubeN.mField := rfl
  rw [e, gsRun]
  try dsimp only
  rw [gsCube_pass1]
  try dsimp only
  rw [gsCube_run1L]

/-- C7: on the 3×3×3 cube with unit boundary and zero interior, one pass sets
all three interior components to exactly 1; the reported error list over two
passes is [3, 0]: positive on pass 1, zero on pass 2. -/
theorem claim_C7 :
    (GSSmooth (some fun _ => false) (.node gsCubeN []) 1).2.1 39 = 1 ∧
    (GSSmooth (some fun _ => false) (.node gsCubeN []) 1).2.1 40 = 1 ∧
    (GSSmooth (some fun _ => false) (.node gsCubeN []) 1).2.1 41 = 1 ∧
    (GSSmooth (some fun _ => false) (.node gsCubeN []) 2).2.2 = [3, 0] ∧
    0 < ((GSSmooth (some fun _ => false) (.node gsCubeN []) 2).2.2).headI := by
  refine ⟨?_, ?_, ?_, ?_, ?_⟩
  · rw [gsCube_eval]
    dsimp only
    rw [gsCube_run1]
    norm_num
  · rw [gsCube_eval]
    dsimp only
    rw [gsCube_run1]
    norm_num
  · rw [gsCube_eval]
    dsimp only
    rw [gsCube_run1]
    norm_num
  · rw [gsCube_eval]
    dsimp only
    rw [gsCube_run2]
  · rw [gsCube_eval]
    dsimp only
    rw [gsCube_run2]
    norm_num

/-! ### C3: the axisymmetric query -/

/-- When the radius lies within the radial extent and the height within the
z extent, `Get2DEAtPoint` succeeds and computes exactly the spec's bilinear
interpolation (clamped floor indices, stride indexing). -/
theorem Get2DEAtPoint_spec (g : CD3Node α) (junk : α × α) (r z : α)
    (hn1 : 2 ≤ g.mNVal 1) (hn2 : 2 ≤ g.mNVal 2)
    (hd1 : 0 < g.mDelta 1) (hd2 : 0 < g.mDelta 2)
    (hr0 : 0 ≤ r) (hrmax : r ≤ (((g.mNVal 1 : ℤ) - 1 : ℤ) : α) * g.mDelta 1)
    (hz0 : g.mMin 2 ≤ z)
    (hzmax : z ≤ g.mMin 2 + (((g.mNVal 2 : ℤ) - 1 : ℤ) : α) * g.mDelta 2) :
    Get2DEAtPoint g junk r z = some (specSliceBilinear g r z) := by
  have hd1' : g.mDelta 1 ≠ 0 := ne_of_gt hd1
  have hd2' : g.mDelta 2 ≠ 0 := ne_of_gt hd2
  have hn1' : (2 : ℤ) ≤ (g.mNVal 1 : ℤ) := by exact_mod_cast hn1
  have hn2' : (2 : ℤ) ≤ (g.mNVal 2 : ℤ) := by exact_mod_cast hn2
  have hu0 : 0 ≤ r / g.mDelta 1 := div_nonneg hr0 (le_of_lt hd1)
  have hv0 : 0 ≤ (z - g.mMin 2) / g.mDelta 2 := div_nonneg (by linarith) (le_of_lt hd2)
  have hraw0 : ctrunc (r / g.mDelta 1) = ⌊r / g.mDelta 1⌋ := by
    unfold ctrunc
    rw [if_pos hu0]
  have hraw1 : ctrunc ((z - g.mMin 2) / g.mDelta 2) = ⌊(z - g.mMin 2) / g.mDelta 2⌋ := by
    unfold ctrunc
    rw [if_pos hv0]
  have humax : r / g.mDelta 1 ≤ ((((g.mNVal 1 : ℤ) - 1 : ℤ) : α)) := by
    rw [div_le_iff hd1]
    exact hrmax
  have hvmax : (z - g.mMin 2) / g.mDelta 2 ≤ ((((g.mNVal 2 : ℤ) - 1 : ℤ) : α)) := by
    rw [div_le_iff hd2]
    linarith
  have hfl0 : ⌊r / g.mDelta 1⌋ ≤ (g.mNVal 1 : ℤ) - 1 := by
    have h := Int.floor_mono humax
    rwa [Int.floor_intCast] at h
  have hfl1 : ⌊(z - g.mMin 2) / g.mDelta 2⌋ ≤ (g.mNVal 2 : ℤ) - 1 := by
    have h := Int.floor_mono hvmax
    rwa [Int.floor_intCast] at h
  have hflnn0 : 0 ≤ ⌊r / g.mDelta 1⌋ := Int.floor_nonneg.mpr hu0
  have hflnn1 : 0 ≤ ⌊(z - g.mMin 2) / g.mDelta 2⌋ := Int.floor_nonneg.mpr hv0
  have hi0 : (if ⌊r / g.mDelta 1⌋ = (g.mNVal 1 : ℤ) - 1 then ⌊r / g.mDelta 1⌋ - 1
      else ⌊r / g.mDelta 1⌋) = min ⌊r / g.mDelta 1⌋ ((g.mNVal 1 : ℤ) - 2) := by
    split_ifs with h <;> omega
  have hi1 : (if ⌊(z - g.mMin 2) / g.mDelta 2⌋ = (g.mNVal 2 : ℤ) - 1 then
      ⌊(z - g.mMin 2) / g.mDelta 2⌋ - 1 else ⌊(z - g.mMin 2) / g.mDelta 2⌋) =
      min ⌊(z - g.mMin 2) / g.mDelta 2⌋ ((g.mNVal 2 : ℤ) - 2) := by
    split_ifs with h <;> omega
  have heq0 : (r - ((min ⌊r / g.mDelta 1⌋ ((g.mNVal 1 : ℤ) - 2) : ℤ) : α) * g.mDelta 1) /
      g.mDelta 1 = r / g.mDelta 1 - ((min ⌊r / g.mDelta 1⌋ ((g.mNVal 1 : ℤ) - 2) : ℤ) : α) := by
    rw [sub_div, mul_div_cancel_right₀ _ hd1']
  have heq1 : (z - (g.mMin 2 + ((min ⌊(z - g.mMin 2) / g.mDelta 2⌋ ((g.mNVal 2 : ℤ) - 2) : ℤ) : α) *
      g.mDelta 2)) / g.mDelta 2 =
      (z - g.mMin 2) / g.mDelta 2 -
        ((min ⌊(z - g.mMin 2) / g.mDelta 2⌋ ((g.mNVal 2 : ℤ) - 2) : ℤ) : α) := by
    rw [show z - (g.mMin 2 + ((min ⌊(z - g.mMin 2) / g.mDelta 2⌋ ((g.mNVal 2 : ℤ) - 2) : ℤ) : α) *
        g.mDelta 2) = z - g.mMin 2 -
        ((min ⌊(z - g.mMin 2) / g.mDelta 2⌋ ((g.mNVal 2 : ℤ) - 2) : ℤ) : α) * g.mDelta 2
      from by ring, sub_div, mul_div_cancel_right₀ _ hd2']
  have hb0 : 0 ≤ r / g.mDelta 1 - ((min ⌊r / g.mDelta 1⌋ ((g.mNVal 1 : ℤ) - 2) : ℤ) : α) ∧
      r / g.mDelta 1 - ((min ⌊r / g.mDelta 1⌋ ((g.mNVal 1 : ℤ) - 2) : ℤ) : α) ≤ 1 := by
    constructor
    · have h1 : ((min ⌊r / g.mDelta 1⌋ ((g.mNVal 1 : ℤ) - 2) : ℤ) : α) ≤ ((⌊r / g.mDelta 1⌋ : ℤ) : α) :=
        Int.cast_le.mpr (min_le_left _ _)
      have h2 := Int.floor_le (r / g.mDelta 1)
      linarith
    · by_cases hc : ⌊r / g.mDelta 1⌋ ≤ (g.mNVal 1 : ℤ) - 2
      · rw [min_eq_left hc]
        have h2 := Int.lt_floor_add_one (r / g.mDelta 1)
        push_cast at h2 ⊢
        linarith
      · rw [min_eq_right (by omega : (g.mNVal 1 : ℤ) - 2 ≤ ⌊r / g.mDelta 1⌋)]
        have hcast : (((g.mNVal 1 : ℤ) - 2 : ℤ) : α) = (((g.mNVal 1 : ℤ) - 1 : ℤ) : α) - 1 := by
          push_cast
          ring
        rw [hcast]
        linarith
  have hb1 : 0 ≤ (z - g.mMin 2) / g.mDelta 2 -
        ((min ⌊(z - g.mMin 2) / g.mDelta 2⌋ ((g.mNVal 2 : ℤ) - 2) : ℤ) : α) ∧
      (z - g.mMin 2) / g.mDelta 2 -
        ((min ⌊(z - g.mMin 2) / g.mDelta 2⌋ ((g.mNVal 2 : ℤ) - 2) : ℤ) : α) ≤ 1 := by
    constructor
    · have h1 : ((min ⌊(z - g.mMin 2) / g.mDelta 2⌋ ((g.mNVal 2 : ℤ) - 2) : ℤ) : α) ≤
          ((⌊(z - g.mMin 2) / g.mDelta 2⌋ : ℤ) : α) := Int.cast_le.mpr (min_le_left _ _)
      have h2 := Int.floor_le ((z - g.mMin 2) / g.mDelta 2)
      linarith
    · by_cases hc : ⌊(z - g.mMin 2) / g.mDelta 2⌋ ≤ (g.mNVal 2 : ℤ) - 2
      · rw [min_eq_left hc]
        have h2 := Int.lt_floor_add_one ((z - g.mMin 2) / g.mDelta 2)
        push_cast at h2 ⊢
        linarith
      · rw [min_eq_right (by omega : (g.mNVal 2 : ℤ) - 2 ≤ ⌊(z - g.mMin 2) / g.mDelta 2⌋)]
        have hcast : (((g.mNVal 2 : ℤ) - 2 : ℤ) : α) = (((g.mNVal 2 : ℤ) - 1 : ℤ) : α) - 1 := by
          push_cast
          ring
        rw [hcast]
        linarith
  have hmilli : (0 : α) < 1 / 1000 := by norm_num
  unfold Get2DEAtPoint specSliceBilinear
  simp only [hraw0, hraw1, hi0, hi1]
  rw [if_neg ?hrange]
  case hrange =>
    rintro ((h | h) | (h | h)) <;> omega
  rw [if_pos ?hslop]
  case hslop =>
    refine ⟨⟨?_, ?_⟩, ?_, ?_⟩
    · rw [heq0]
      linarith [hb0.1]
    · rw [heq0]
      linarith [hb0.2]
    · rw [heq1]
      linarith [hb1.1]
    · rw [heq1]
      linarith [hb1.2]
  simp only [heq0, heq1, add_zero, ← add_assoc]

/-- The axisymmetric counterexample grid: 2 radial points and 2 z planes with
unit steps (radial coverage `[0,1]`), bounding box `[-1,1]²×[0,1]`, row
stride 2, constant samples. -/
def axCexN : CD3Node ℝ :=
  ⟨0, ![1, 2, 2], ![-1, -1, 0], ![1, 1, 1], ![1, 1, 1], 2, fun _ => 5, "ax"⟩

/-- C3 counterexample: the corner point `(1,1,0)` is inside the bounding box,
but its radius `√2` exceeds the radial extent 1, so the axisymmetric query
FAILS (the reduced radial coordinate `√2` exceeds the `1.001` slop) instead
of returning the interpolated-and-projected value the claim promises for
every in-bounds point. -/
theorem claim_C3_cex :
    PtInBounds axCexN ![1, 1, 0] = true ∧
    GetAxEAtPoint Real.sqrt ((0 : ℝ), 0) axCexN ![1, 1, 0] = none := by
  have hs1 : 1 ≤ Real.sqrt 2 := by
    have h := Real.sqrt_le_sqrt (show (1 : ℝ) ≤ 2 by norm_num)
    rwa [Real.sqrt_one] at h
  have hgt : 1 + 1 / 1000 < Real.sqrt 2 := by
    nlinarith [Real.sq_sqrt (show (0 : ℝ) ≤ 2 by norm_num), Real.sqrt_nonneg 2]
  have hs2 : Real.sqrt 2 < 2 := by
    nlinarith [Real.sq_sqrt (show (0 : ℝ) ≤ 2 by norm_num), Real.sqrt_nonneg 2]
  have hfl : ⌊Real.sqrt 2⌋ = 1 := by
    rw [Int.floor_eq_iff]
    constructor
    · exact_mod_cast hs1
    · push_cast
      linarith
  have hct : ctrunc (Real.sqrt 2) = 1 := by
    unfold ctrunc
    rw [if_pos (Real.sqrt_nonneg 2), hfl]
  have hct0 : ctrunc (0 : ℝ) = 0 := by
    unfold ctrunc
    rw [if_pos le_rfl]
    exact Int.floor_zero
  have hngt : ¬ Real.sqrt 2 ≤ 1 + 1 / 1000 := not_le.mpr hgt
  have hngt2 : ¬ Real.sqrt 2 ≤ 1001 / 1000 := by
    rw [show (1001 : ℝ) / 1000 = 1 + 1 / 1000 by norm_num]
    exact hngt
  have hb : PtInBounds axCexN ![1, 1, 0] = true := by
    rw [PtInBounds, decide_eq_true_eq]
    intro i
    fin_cases i <;>
      norm_num [axCexN, Matrix.cons_val_zero, Matrix.cons_val_one, Matrix.head_cons,
        Matrix.cons_val_two, Matrix.tail_cons]
  refine ⟨hb, ?_⟩
  have h2d : Get2DEAtPoint axCexN ((0 : ℝ), 0) (Real.sqrt 2) 0 = none := by
    unfold Get2DEAtPoint
    norm_num [axCexN, Matrix.cons_val_zero, Matrix.cons_val_one, Matrix.head_cons,
      Matrix.cons_val_two, Matrix.tail_cons, hct, hct0, hngt, hngt2]
  unfold GetAxEAtPoint
  rw [if_pos hb]
  simp only [Matrix.cons_val_zero, Matrix.cons_val_one, Matrix.head_cons,
    Matrix.cons_val_two, Matrix.tail_cons, show (1 : ℝ) * 1 + 1 * 1 = 2 from by norm_num,
    h2d]

/-- C3 (amended): for an in-bounds point whose radius `√(x²+y²)` also lies
within the radial extent and whose height lies within the z extent, the
axisymmetric query computes the spec's bilinear slice interpolation at
`(r, z)` (stride indexing) and projects it back with `cos = x/r`,
`sin = y/r` for `r > 0` and `cos = sin = 0` at `r = 0`; in particular at
`r = 0` the returned x and y components are exactly 0.  (Without the radial
and z extent hypotheses the query can fail or return the caller's
uninitialized buffer even in bounds — see the counterexample.) -/
theorem claim_C3 (g : CD3Node ℝ) (junk : ℝ × ℝ) (c : Vec3 ℝ)
    (hb : PtInBounds g c = true)
    (hn1 : 2 ≤ g.mNVal 1) (hn2 : 2 ≤ g.mNVal 2)
    (hd1 : 0 < g.mDelta 1) (hd2 : 0 < g.mDelta 2)
    (hrmax : Real.sqrt (c 0 * c 0 + c 1 * c 1) ≤ (((g.mNVal 1 : ℤ) - 1 : ℤ) : ℝ) * g.mDelta 1)
    (hz0 : g.mMin 2 ≤ c 2)
    (hzmax : c 2 ≤ g.mMin 2 + (((g.mNVal 2 : ℤ) - 1 : ℤ) : ℝ) * g.mDelta 2) :
    GetAxEAtPoint Real.sqrt junk g c =
      some ![(specSliceBilinear g (Real.sqrt (c 0 * c 0 + c 1 * c 1)) (c 2)).1 *
          (if 0 < Real.sqrt (c 0 * c 0 + c 1 * c 1) then
            c 0 / Real.sqrt (c 0 * c 0 + c 1 * c 1) else 0),
        (specSliceBilinear g (Real.sqrt (c 0 * c 0 + c 1 * c 1)) (c 2)).1 *
          (if 0 < Real.sqrt (c 0 * c 0 + c 1 * c 1) then
            c 1 / Real.sqrt (c 0 * c 0 + c 1 * c 1) else 0),
        (specSliceBilinear g (Real.sqrt (c 0 * c 0 + c 1 * c 1)) (c 2)).2] ∧
    (Real.sqrt (c 0 * c 0 + c 1 * c 1) = 0 →
      GetAxEAtPoint Real.sqrt junk g c =
        some ![0, 0, (specSliceBilinear g 0 (c 2)).2]) := by
  have hsq := Real.sqrt_nonneg (c 0 * c 0 + c 1 * c 1)
  have h2d := Get2DEAtPoint_spec g junk (Real.sqrt (c 0 * c 0 + c 1 * c 1)) (c 2)
    hn1 hn2 hd1 hd2 hsq hrmax hz0 hzmax
  constructor
  · unfold GetAxEAtPoint
    rw [if_pos hb]
    simp only [h2d]
  · intro h0
    unfold GetAxEAtPoint
    rw [if_pos hb]
    simp only [h2d]
    rw [h0]
    simp only [lt_irrefl, if_false, mul_zero]

/-- Witness for C3: the x-axis point `(1,0,0)` of the counterexample grid has
radius `√1 = 1`, exactly the radial extent, so the amended statement applies
and gives the projected slice value. -/
theorem claim_C3_witness :
    (PtInBounds axCexN ![1, 0, 0] = true ∧
      2 ≤ axCexN.mNVal 1 ∧ 2 ≤ axCexN.mNVal 2 ∧
      (0 : ℝ) < axCexN.mDelta 1 ∧ (0 : ℝ) < axCexN.mDelta 2 ∧
      Real.sqrt ((1 : ℝ) * 1 + 0 * 0) ≤
        (((axCexN.mNVal 1 : ℤ) - 1 : ℤ) : ℝ) * axCexN.mDelta 1 ∧
      axCexN.mMin 2 ≤ (0 : ℝ) ∧
      (0 : ℝ) ≤ axCexN.mMin 2 + (((axCexN.mNVal 2 : ℤ) - 1 : ℤ) : ℝ) * axCexN.mDelta 2) ∧
    GetAxEAtPoint Real.sqrt ((5 : ℝ), 7) axCexN ![1, 0, 0] =
      some ![(specSliceBilinear axCexN (Real.sqrt ((1 : ℝ) * 1 + 0 * 0)) 0).1 *
          (if 0 < Real.sqrt ((1 : ℝ) * 1 + 0 * 0) then
            1 / Real.sqrt ((1 : ℝ) * 1 + 0 * 0) else 0),
        (specSliceBilinear axCexN (Real.sqrt ((1 : ℝ) * 1 + 0 * 0)) 0).1 *
          (if 0 < Real.sqrt ((1 : ℝ) * 1 + 0 * 0) then
            0 / Real.sqrt ((1 : ℝ) * 1 + 0 * 0) else 0),
        (specSliceBilinear axCexN (Real.sqrt ((1 : ℝ) * 1 + 0 * 0)) 0).2] := by
  have hbW : PtInBounds axCexN ![1, 0, 0] = true := by
    rw [PtInBounds, decide_eq_true_eq]
    intro i
    fin_cases i <;>
      norm_num [axCexN, Matrix.cons_val_zero, Matrix.cons_val_one, Matrix.head_cons,
        Matrix.cons_val_two, Matrix.tail_cons]
  have hrmaxW : Real.sqrt ((![1, 0, 0] : Vec3 ℝ) 0 * ![1, 0, 0] 0 +
      (![1, 0, 0] : Vec3 ℝ) 1 * ![1, 0, 0] 1) ≤
      (((axCexN.mNVal 1 : ℤ) - 1 : ℤ) : ℝ) * axCexN.mDelta 1 := by
    norm_num [axCexN, Matrix.cons_val_zero, Matrix.cons_val_one, Matrix.head_cons,
      Matrix.cons_val_two, Matrix.tail_cons, Real.sqrt_one]
  refine ⟨⟨hbW, by decide, by decide, ?_, ?_, ?_, ?_, ?_⟩, ?_⟩
  · norm_num [axCexN, Matrix.cons_val_one, Matrix.head_cons]
  · norm_num [axCexN, Matrix.cons_val_two, Matrix.tail_cons, Matrix.cons_val_one,
      Matrix.head_cons]
  · norm_num [axCexN, Matrix.cons_val_one, Matrix.head_cons, Real.sqrt_one]
  · norm_num [axCexN, Matrix.cons_val_two, Matrix.tail_cons, Matrix.cons_val_one,
      Matrix.head_cons]
  · norm_num [axCexN, Matrix.cons_val_two, Matrix.tail_cons, Matrix.cons_val_one,
      Matrix.head_cons]
  · exact (claim_C3 axCexN (5, 7) ![1, 0, 0] hbW (by decide) (by decide)
      (by norm_num [axCexN, Matrix.cons_val_one, Matrix.head_cons])
      (by norm_num [axCexN, Matrix.cons_val_two, Matrix.tail_cons, Matrix.cons_val_one,
        Matrix.head_cons])
      hrmaxW
      (by norm_num [axCexN, Matrix.cons_val_two, Matrix.tail_cons])
      (by norm_num [axCexN, Matrix.cons_val_two, Matrix.tail_cons, Matrix.cons_val_one,
        Matrix.head_cons])).1

end COMSOL3DBin
